import Mathlib

/-!
Shallow embedding of `telethon/client/auth.py` (class `AuthMethods`):
the interactive authentication orchestrator.  Remote answers and user
callbacks are passed in explicitly as environment values, RPC requests and
console reports are collected in an event trace, and the per-client mutable
attributes are threaded as an explicit `ClientState`.
-/

namespace Telethon

/-- A Telegram user object, reduced to the fields the auth flow reads:
an id (standing in for the peer data), the `bot` flag and a display name. -/
structure User where
  id : Nat
  bot : Bool
  name : String
deriving DecidableEq, Repr

/-- Terms of service attached to a sent code (`self._tos`). -/
structure Tos where
  id : Nat
  text : String
deriving DecidableEq, Repr

/-- Password KDF algorithm parameters; the flow only ever touches `salt1`. -/
structure Algo where
  salt1 : List Nat
deriving DecidableEq, Repr

/-- The `account.Password` descriptor fetched by `GetPasswordRequest`. -/
structure PasswordDescr where
  has_password : Bool
  new_algo : Algo
deriving DecidableEq, Repr

/-- Result of `auth.SendCode` / `auth.ResendCode` (an `auth.SentCode`). -/
structure SentCode where
  phone_registered : Bool
  phone_code_hash : String
  terms_of_service : Option Tos
deriving DecidableEq, Repr

/-- Modelled from the spec: `utils.parse_phone` is an external normalization
utility missing from the shown sources; the spec only requires that it yields
a normalized phone or fails on non-phone input.  We model already-normalized
phones as nonempty strings and everything else as unparseable. -/
def parse_phone : Option String → Option String
  | none => none
  | some s => if s.isEmpty then none else some s

/-- SRP proof value passed to `auth.CheckPassword` /
`account.UpdatePasswordSettings`. -/
inductive CheckProof
  | empty
  | check (descr : PasswordDescr) (plaintext : String)
deriving DecidableEq, Repr

/-- Modelled from the spec: `password.compute_check` is the external SRP
handshake (consumed, not reimplemented); the flow only forwards its result,
so we record its two inputs. -/
def compute_check (pwd : PasswordDescr) (plaintext : String) : CheckProof :=
  .check pwd plaintext

/-- New-password verifier hash: the empty byte string (removal) or a digest. -/
inductive PwHash
  | emptyBytes
  | digest (salt1 : List Nat) (plaintext : String)
deriving DecidableEq, Repr

/-- Modelled from the spec: `password.compute_digest` is external; the spec
requires the digest to change whenever `salt1` is refreshed and to be stable
for a fixed salt and plaintext, which recording both inputs provides. -/
def compute_digest (algo : Algo) (plaintext : String) : PwHash :=
  .digest algo.salt1 plaintext

/-- Payload of `account.PasswordInputSettings`. -/
structure PasswordInputSettings where
  new_algo : Algo
  new_password_hash : PwHash
  hint : String
  email : Option String
deriving DecidableEq, Repr

/-- The RPC requests the auth flow can issue, with the payloads it fills in. -/
inductive RPC
  | sendCode (phone : Option String)
  | resendCode (phone : Option String) (phone_code_hash : String)
  | signInReq (phone phone_code_hash code : String)
  | signUpReq (phone phone_code_hash code first_name last_name : String)
  | importBotAuth (token : String)
  | getPassword
  | checkPassword (proof : CheckProof)
  | updatePasswordSettings (pw : CheckProof) (settings : PasswordInputSettings)
  | confirmPasswordEmail (code : String)
  | logOutReq
  | acceptTerms (id : Nat)
deriving DecidableEq, Repr

/-- Observable actions: RPC requests and console reports. -/
inductive Event
  | rpc (r : RPC)
  | printInvalidCode
  | printInvalidPassword
  | printTos (text : String)
  | printSignedIn (name : String)
deriving DecidableEq, Repr

/-- The exceptions the auth flow raises or branches on. -/
inductive AuthError
  | phoneCodeEmpty
  | phoneCodeExpired
  | phoneCodeHashEmpty
  | phoneCodeInvalid
  | sessionPasswordNeeded
  | phoneNumberOccupied
  | phoneNumberUnoccupied
  | passwordHashInvalid
  | valueError (msg : String)
  | runtimeError (msg : String)
  | rpcFailure
deriving DecidableEq, Repr

/-- The per-client mutable attributes the auth methods read and write. -/
structure ClientState where
  connected : Bool
  authorized : Bool
  bot : Option Bool
  selfInputPeer : Option Nat
  phone : Option String
  phoneCodeHash : List (Option String × String)
  tos : Option Tos
  updateState : Option Nat
  sessionSaved : Bool
deriving DecidableEq, Repr

/-- Model of `dict.get` on the `self._phone_code_hash` mapping. -/
def hashGet (m : List (Option String × String)) (k : Option String) : Option String :=
  (m.find? (fun e => e.fst == k)).map (fun e => e.snd)

/-- Model of `dict.__setitem__` on the `self._phone_code_hash` mapping. -/
def hashSet (m : List (Option String × String)) (k : Option String) (v : String) :
    List (Option String × String) :=
  (k, v) :: m.filter (fun e => !(e.fst == k))

/-- Python truthiness of an optional string (`None` and `""` are falsy). -/
def otruthy : Option String → Bool
  | none => false
  | some s => !s.isEmpty

/-- One remote answer to `auth.SendCode`: a sent code, or `AuthRestartError`. -/
inductive SendCodeRpcResult
  | ok (r : SentCode)
  | authRestart
deriving DecidableEq, Repr

/-- Embedding of `send_code_request` (auth.py 380-418).  `sends` lists the remote's
successive answers to `auth.SendCode` (one consumed per issued request, which
also bounds the `AuthRestartError` automatic re-submission); `resend` answers
`auth.ResendCode`.  The cached hash is tested for Python truthiness
(`if not phone_hash:`, line 398): an absent or empty-string hash takes the
fresh-send branch, a truthy one forces the resend branch.  Returns the
resulting `SentCode`, the updated client state and the event trace, or
`none` if `sends` runs out mid-restart. -/
def send_code_request (st : ClientState) (phoneArg : Option String)
    (force_sms : Bool) (sends : List SendCodeRpcResult) (resend : SentCode) :
    Option (SentCode × ClientState × List Event) :=
  let phone := (parse_phone phoneArg).orElse (fun _ => st.phone)
  let cached := hashGet st.phoneCodeHash phone
  if otruthy cached then
    let phone_hash := cached.getD ""
    let st1 : ClientState := { st with phone := phone }
    let st2 : ClientState :=
      { st1 with phoneCodeHash := hashSet st1.phoneCodeHash phone resend.phone_code_hash }
    some (resend, st2, [.rpc (.resendCode phone phone_hash)])
  else
    match sends with
    | [] => none
    | .authRestart :: rest =>
      (send_code_request st phoneArg force_sms rest resend).map
        (fun r => (r.1, r.2.1, .rpc (.sendCode phone) :: r.2.2))
    | .ok result :: _ =>
      let phone_hash := result.phone_code_hash
      let st1 : ClientState :=
        { st with tos := result.terms_of_service,
                  phoneCodeHash := hashSet st.phoneCodeHash phone phone_hash,
                  phone := phone }
      if force_sms then
        let st2 : ClientState :=
          { st1 with phoneCodeHash := hashSet st1.phoneCodeHash phone resend.phone_code_hash }
        some (resend, st2, [.rpc (.sendCode phone), .rpc (.resendCode phone phone_hash)])
      else
        some (result, st1, [.rpc (.sendCode phone)])

/-- Embedding of `log_out` (auth.py 420-439); `rpcOk` says whether `auth.LogOut` succeeds
or raises an `RPCError`. -/
def log_out (st : ClientState) (rpcOk : Bool) : Bool × ClientState × List Event :=
  if rpcOk then
    (true,
     { st with bot := none, selfInputPeer := none, authorized := false,
               updateState := none, connected := false, sessionSaved := false },
     [.rpc .logOutReq])
  else
    (false, st, [.rpc .logOutReq])

/-- Modelled from the spec: `utils.get_input_peer(user, allow_self=False)` is
an external peer utility; we record the user id as the self-peer reference. -/
def get_input_peer (u : User) : Nat := u.id

/-- Embedding of `_on_login` (auth.py 368-378). -/
def _on_login (st : ClientState) (u : User) : ClientState :=
  { st with bot := some u.bot, selfInputPeer := some (get_input_peer u),
            authorized := true }

/-- Embedding of `_parse_phone_and_hash` (auth.py 224-238). -/
def _parse_phone_and_hash (st : ClientState) (phoneArg phoneHashArg : Option String) :
    Except AuthError (String × String) :=
  let phone := (parse_phone phoneArg).orElse (fun _ => st.phone)
  if otruthy phone then
    let phone_hash :=
      if otruthy phoneHashArg then phoneHashArg
      else hashGet st.phoneCodeHash phone
    if otruthy phone_hash then
      .ok (phone.getD "", phone_hash.getD "")
    else
      .error (.valueError "You also need to provide a phone_code_hash.")
  else
    .error (.valueError "Please make sure to call send_code_request first.")

/-- The remote answers one `sign_in` / `sign_up` call can consume. -/
structure RpcEnv where
  getMe : Option User
  signInAns : Except AuthError User
  signUpAns : Except AuthError User
  getPwdAns : PasswordDescr
  checkAns : Except AuthError User
  botAns : Except AuthError User
  sends : List SendCodeRpcResult
  resend : SentCode

/-- What `sign_in` can return: a user, or the `SentCode` info of a
delegated `send_code_request`. -/
inductive SignInRet
  | user (u : User)
  | sent (r : SentCode)
deriving DecidableEq, Repr

/-- Embedding of `sign_in` (auth.py 240-305).  `none` only when `env.sends` runs out
inside a delegated `send_code_request`. -/
def sign_in (st : ClientState) (env : RpcEnv)
    (phone code password bot_token phone_code_hash : Option String) :
    Option (Except AuthError SignInRet × ClientState × List Event) :=
  match env.getMe with
  | some me => some (.ok (.user me), st, [])
  | none =>
    if otruthy phone && !otruthy code && !otruthy password then
      (send_code_request st phone false env.sends env.resend).map
        (fun r => (.ok (.sent r.1), r.2.1, r.2.2))
    else if otruthy code then
      match _parse_phone_and_hash st phone phone_code_hash with
      | .error e => some (.error e, st, [])
      | .ok (p, h) =>
        let ev := Event.rpc (.signInReq p h (code.getD ""))
        match env.signInAns with
        | .error e => some (.error e, st, [ev])
        | .ok u => some (.ok (.user u), _on_login st u, [ev])
    else if otruthy password then
      let pwd := env.getPwdAns
      let evs := [Event.rpc .getPassword,
                  Event.rpc (.checkPassword (compute_check pwd (password.getD "")))]
      match env.checkAns with
      | .error e => some (.error e, st, evs)
      | .ok u => some (.ok (.user u), _on_login st u, evs)
    else if otruthy bot_token then
      let ev := Event.rpc (.importBotAuth (bot_token.getD ""))
      match env.botAns with
      | .error e => some (.error e, st, [ev])
      | .ok u => some (.ok (.user u), _on_login st u, [ev])
    else
      some (.error (.valueError
        "You must provide a phone and a code the first time, and a password only if an RPCError was raised before."),
        st, [])

/-- The terms-of-service text `sign_up` writes to stderr
(auth.py 343-349: only when `self._tos` is set and its text is nonempty). -/
def tosEvents (st : ClientState) : List Event :=
  match st.tos with
  | some t => if t.text.isEmpty then [] else [.printTos t.text]
  | none => []

/-- The `help.AcceptTermsOfService` request `sign_up` issues after a
successful sign-up (auth.py 362-364: only when `self._tos` is set). -/
def acceptTosEvents (st : ClientState) : List Event :=
  match st.tos with
  | some t => [.rpc (.acceptTerms t.id)]
  | none => []

/-- Embedding of `sign_up` (auth.py 307-366). -/
def sign_up (st : ClientState) (env : RpcEnv) (code : String)
    (first_name last_name : String) (phone phone_code_hash : Option String) :
    Except AuthError User × ClientState × List Event :=
  match env.getMe with
  | some me => (.ok me, st, [])
  | none =>
    let tosEvs := tosEvents st
    match _parse_phone_and_hash st phone phone_code_hash with
    | .error e => (.error e, st, tosEvs)
    | .ok (p, h) =>
      let ev := Event.rpc (.signUpReq p h code first_name last_name)
      match env.signUpAns with
      | .error e => (.error e, st, tosEvs ++ [ev])
      | .ok u => (.ok u, _on_login st u, tosEvs ++ ev :: acceptTosEvents st)

/-- Placeholder user for unused environment fields. -/
def dummyUser : User := ⟨0, false, ""⟩

/-- Placeholder password descriptor for unused environment fields. -/
def dummyPwd : PasswordDescr := ⟨false, ⟨[]⟩⟩

/-- Placeholder sent-code answer for unused environment fields. -/
def dummySent : SentCode := ⟨true, "", none⟩

/-- Base environment for the `sign_in` / `sign_up` calls issued inside
`_start`; each call site overrides exactly the fields its control path can
consume, the rest are inert placeholders. -/
def baseEnv : RpcEnv :=
  ⟨none, .error .rpcFailure, .error .rpcFailure, dummyPwd,
   .error .rpcFailure, .error .rpcFailure, [], dummySent⟩

/-- Per-iteration environment of the code retry loop of `_start`
(auth.py 151-182), indexed by the current `attempts` counter: the value the
code callback returns, what `get_me()` reports inside the nested
`sign_in`/`sign_up` call, and the remote's answer to the RPC it issues. -/
structure LoopEnv where
  codeVal : Nat → String
  getMe : Nat → Option User
  ans : Nat → Except AuthError User

/-- How the code retry loop of `_start` ends. -/
inductive LoopExit
  | success (me : SignInRet)
  | twoStep
  | exhausted
  | uncaught (e : AuthError)
deriving DecidableEq, Repr

/-- Result of the code retry loop: exit kind, final client state, final
`attempts` counter and event trace. -/
structure CodeLoopRes where
  exit : LoopExit
  st : ClientState
  attempts : Nat
  trace : List Event
deriving DecidableEq, Repr

/-- The `while attempts < max_attempts` code loop of `_start`
(auth.py 151-187): obtain a code value, reject empty values as
`PhoneCodeEmptyError`, otherwise call `sign_up` or `sign_in`; classify the
resulting exception exactly as the `except` clauses do.  Exits `exhausted`
when the loop condition fails (the `while`-`else` clause). -/
def code_loop (lenv : LoopEnv) (st : ClientState) (phone : Option String)
    (first_name last_name : String) (signUpFlag : Bool)
    (attempts max_attempts : Nat) : Option CodeLoopRes :=
  if _h : attempts < max_attempts then
    let value := lenv.codeVal attempts
    let env : RpcEnv :=
      { baseEnv with getMe := lenv.getMe attempts,
                     signInAns := lenv.ans attempts,
                     signUpAns := lenv.ans attempts }
    let step : Option (Except AuthError SignInRet × ClientState × List Event) :=
      if value.isEmpty then
        some (.error .phoneCodeEmpty, st, [])
      else if signUpFlag then
        let r := sign_up st env value first_name last_name none none
        some (r.1.map (fun u => SignInRet.user u), r.2.1, r.2.2)
      else
        sign_in st env phone (some value) none none none
    match step with
    | none => none
    | some (.ok me, st1, tr) => some ⟨.success me, st1, attempts, tr⟩
    | some (.error .sessionPasswordNeeded, st1, tr) => some ⟨.twoStep, st1, attempts, tr⟩
    | some (.error .phoneNumberOccupied, st1, tr) =>
      (code_loop lenv st1 phone first_name last_name false (attempts + 1) max_attempts).map
        (fun r => ⟨r.exit, r.st, r.attempts, tr ++ r.trace⟩)
    | some (.error .phoneNumberUnoccupied, st1, tr) =>
      (code_loop lenv st1 phone first_name last_name true (attempts + 1) max_attempts).map
        (fun r => ⟨r.exit, r.st, r.attempts, tr ++ r.trace⟩)
    | some (.error .phoneCodeEmpty, st1, tr)
    | some (.error .phoneCodeExpired, st1, tr)
    | some (.error .phoneCodeHashEmpty, st1, tr)
    | some (.error .phoneCodeInvalid, st1, tr) =>
      (code_loop lenv st1 phone first_name last_name signUpFlag (attempts + 1) max_attempts).map
        (fun r => ⟨r.exit, r.st, r.attempts, tr ++ Event.printInvalidCode :: r.trace⟩)
    | some (.error e, st1, tr) => some ⟨.uncaught e, st1, attempts, tr⟩
  else
    some ⟨.exhausted, st, attempts, []⟩
termination_by max_attempts - attempts
decreasing_by all_goals omega

/-- Per-iteration environment of the 2FA password loop of `_start`
(auth.py 197-207), indexed by the loop iteration. -/
structure PwdLoopEnv where
  pwdVal : Nat → String
  getMe : Nat → Option User
  getPwdAns : Nat → PasswordDescr
  checkAns : Nat → Except AuthError User
  sends : Nat → List SendCodeRpcResult
  resend : Nat → SentCode

/-- How the 2FA password loop ends; `exhausted` is the `for`-`else` clause
raising `PasswordHashInvalidError(None)`. -/
inductive PwdExit
  | success (me : SignInRet)
  | exhausted
  | uncaught (e : AuthError)
deriving DecidableEq, Repr

/-- Result of the 2FA password loop. -/
structure PwdLoopRes where
  exit : PwdExit
  st : ClientState
  used : Nat
  trace : List Event
deriving DecidableEq, Repr

/-- The `for _ in range(max_attempts)` 2FA password loop of `_start`
(auth.py 196-209): obtain a password value and call
`sign_in(phone=phone, password=value)`; `PasswordHashInvalidError` is
reported and retried, any other exception propagates. -/
def password_loop (penv : PwdLoopEnv) (st : ClientState) (phone : Option String)
    (i max_attempts : Nat) : Option PwdLoopRes :=
  if _h : i < max_attempts then
    let env : RpcEnv :=
      { baseEnv with getMe := penv.getMe i, getPwdAns := penv.getPwdAns i,
                     checkAns := penv.checkAns i, sends := penv.sends i,
                     resend := penv.resend i }
    match sign_in st env phone none (some (penv.pwdVal i)) none none with
    | none => none
    | some (.ok me, st1, tr) => some ⟨.success me, st1, i, tr⟩
    | some (.error .passwordHashInvalid, st1, tr) =>
      (password_loop penv st1 phone (i + 1) max_attempts).map
        (fun r => ⟨r.exit, r.st, r.used, tr ++ Event.printInvalidPassword :: r.trace⟩)
    | some (.error e, st1, tr) => some ⟨.uncaught e, st1, i, tr⟩
  else
    some ⟨.exhausted, st, i, []⟩
termination_by max_attempts - i
decreasing_by all_goals omega

/-- The `phone` argument of `start`: a falsy value, a literal string, or a
callable returning successive values. -/
inductive PhoneArg
  | noneA
  | strA (s : String)
  | cbA (vals : Nat → String)

/-- Python truthiness of the `phone` argument (callables are truthy). -/
def PhoneArg.truthy : PhoneArg → Bool
  | .noneA => false
  | .strA s => !s.isEmpty
  | .cbA _ => true

/-- Truth of `callable(phone)`. -/
def PhoneArg.callable : PhoneArg → Bool
  | .cbA _ => true
  | _ => false

/-- The literal value of a non-callable `phone` argument. -/
def PhoneArg.value : PhoneArg → Option String
  | .strA s => some s
  | _ => none

/-- The `password` argument of `start`. -/
inductive PasswordArg
  | noneA
  | strA (s : String)
  | cbA (vals : Nat → String)

/-- Python truthiness of the `password` argument. -/
def PasswordArg.truthy : PasswordArg → Bool
  | .noneA => false
  | .strA s => !s.isEmpty
  | .cbA _ => true

/-- The literal value of a non-callable `password` argument. -/
def PasswordArg.str : PasswordArg → String
  | .strA s => s
  | _ => ""

/-- The `code_callback` argument of `start`: `None` (defaults to an input
prompt), a callable, or a non-callable object. -/
inductive CodeCbArg
  | noneA
  | callableA (vals : Nat → String)
  | notCallableA

/-- Whether a string is bot-token-shaped (contains the `:` separator). -/
def looksLikeBotToken (s : String) : Bool :=
  (s.splitOn ":").length != 1

/-- The `while callable(phone)` resolution loop of `_start`
(auth.py 129-139): call the phone callable until it yields a
bot-token-shaped value or a parseable phone; `fuel` bounds the number of
calls modelled (the original loop is unbounded). -/
def resolve_phone_cb (vals : Nat → String) : Nat → Nat → Option (String ⊕ String)
  | 0, _ => none
  | fuel + 1, i =>
    let value := vals i
    if looksLikeBotToken value then some (Sum.inr value)
    else
      match parse_phone (some value) with
      | some p => some (Sum.inl p)
      | none => resolve_phone_cb vals fuel (i + 1)

/-- Modelled from the spec: `utils.get_display_name` is an external display
utility; a `SentCode` has no display name. -/
def get_display_name : SignInRet → String
  | .user u => u.name
  | .sent _ => ""

/-- Everything the environment (remote service and interactive user)
supplies to one `_start` run. -/
structure StartEnv where
  isAuthorized : Bool
  inputCodes : Nat → String
  codeGetMe : Nat → Option User
  codeAns : Nat → Except AuthError User
  pwdGetMe : Nat → Option User
  pwdGetPwdAns : Nat → PasswordDescr
  pwdCheckAns : Nat → Except AuthError User
  pwdSends : Nat → List SendCodeRpcResult
  pwdResend : Nat → SentCode
  sends : List SendCodeRpcResult
  resend : SentCode
  botGetMe : Option User
  botAns : Except AuthError User
  phoneFuel : Nat
  fixedPwdGetMe : Option User

/-- Embedding of `_start` (auth.py 118-222).  Returns `none` only when an environment
stream runs out (phone-callable fuel or `SendCode` restart answers);
otherwise the outcome (success or the raised exception), the final client
state and the full event trace. -/
def _start (st : ClientState) (env : StartEnv) (phone : PhoneArg)
    (password : PasswordArg) (bot_token : Option String) (force_sms : Bool)
    (codeVal : Nat → String) (first_name last_name : String)
    (max_attempts : Nat) :
    Option (Except AuthError Unit × ClientState × List Event) :=
  let st0 := if st.connected then st else { st with connected := true }
  if env.isAuthorized then some (.ok (), st0, [])
  else
    let resolved : Option (Option String × Option String) :=
      if otruthy bot_token then some (phone.value, bot_token)
      else
        match phone with
        | .cbA vals =>
          match resolve_phone_cb vals env.phoneFuel 0 with
          | none => none
          | some (Sum.inl p) => some (some p, bot_token)
          | some (Sum.inr tok) => some (none, some tok)
        | .strA s => some (some s, bot_token)
        | .noneA => some (none, bot_token)
    match resolved with
    | none => none
    | some (phoneOpt, botOpt) =>
      if otruthy botOpt then
        match sign_in st0 { baseEnv with getMe := env.botGetMe, botAns := env.botAns }
            none none none botOpt none with
        | none => none
        | some (.error e, st1, tr) => some (.error e, st1, tr)
        | some (.ok _, st1, tr) => some (.ok (), st1, tr)
      else
        match send_code_request st0 phoneOpt force_sms env.sends env.resend with
        | none => none
        | some (sent, st1, sendTr) =>
          let lenv : LoopEnv := ⟨codeVal, env.codeGetMe, env.codeAns⟩
          match code_loop lenv st1 phoneOpt first_name last_name
              (!sent.phone_registered) 0 max_attempts with
          | none => none
          | some res =>
            match res.exit with
            | .exhausted =>
              some (.error (.runtimeError
                (toString max_attempts ++ " consecutive sign-in attempts failed. Aborting")),
                res.st, sendTr ++ res.trace)
            | .uncaught e => some (.error e, res.st, sendTr ++ res.trace)
            | .success me =>
              some (.ok (), res.st,
                sendTr ++ res.trace ++ [.printSignedIn (get_display_name me)])
            | .twoStep =>
              if !password.truthy then
                some (.error (.valueError
                  "Two-step verification is enabled for this account. Please provide the password argument to start()."),
                  res.st, sendTr ++ res.trace)
              else
                match password with
                | .cbA pv =>
                  let penv : PwdLoopEnv :=
                    ⟨pv, env.pwdGetMe, env.pwdGetPwdAns, env.pwdCheckAns,
                     env.pwdSends, env.pwdResend⟩
                  match password_loop penv res.st phoneOpt 0 max_attempts with
                  | none => none
                  | some pres =>
                    match pres.exit with
                    | .success me =>
                      some (.ok (), pres.st,
                        sendTr ++ res.trace ++ pres.trace ++
                          [.printSignedIn (get_display_name me)])
                    | .exhausted =>
                      some (.error .passwordHashInvalid, pres.st,
                        sendTr ++ res.trace ++ pres.trace)
                    | .uncaught e =>
                      some (.error e, pres.st, sendTr ++ res.trace ++ pres.trace)
                | _ =>
                  match sign_in res.st
                      { baseEnv with getMe := env.fixedPwdGetMe,
                                     getPwdAns := env.pwdGetPwdAns 0,
                                     checkAns := env.pwdCheckAns 0,
                                     sends := env.pwdSends 0,
                                     resend := env.pwdResend 0 }
                      phoneOpt none (some password.str) none none with
                  | none => none
                  | some (.error e, st2, tr2) =>
                    some (.error e, st2, sendTr ++ res.trace ++ tr2)
                  | some (.ok me, st2, tr2) =>
                    some (.ok (), st2,
                      sendTr ++ res.trace ++ tr2 ++
                        [.printSignedIn (get_display_name me)])

/-- Embedding of `start` (auth.py 18-116): validate the arguments, then run `_start`.
The three validation errors are raised before any RPC is issued. -/
def start (st : ClientState) (env : StartEnv) (phone : PhoneArg)
    (password : PasswordArg) (bot_token : Option String) (force_sms : Bool)
    (code_callback : CodeCbArg) (first_name last_name : String)
    (max_attempts : Nat) :
    Option (Except AuthError Unit × ClientState × List Event) :=
  match code_callback with
  | .notCallableA =>
    some (.error (.valueError
      "The code_callback parameter needs to be a callable function that returns the code you received by Telegram."),
      st, [])
  | _ =>
    let codeVal : Nat → String :=
      match code_callback with
      | .callableA vals => vals
      | _ => env.inputCodes
    if !phone.truthy && !otruthy bot_token then
      some (.error (.valueError "No phone number or bot token provided."), st, [])
    else if phone.truthy && otruthy bot_token && !phone.callable then
      some (.error (.valueError
        "Both a phone and a bot token provided, must only provide one of either"),
        st, [])
    else
      _start st env phone password bot_token force_sms codeVal
        first_name last_name max_attempts

/-- The `email_code_callback` argument of `edit_2fa`. -/
inductive EmailCbArg
  | noneA
  | callableA (vals : Nat → String)
  | notCallableA

/-- Truth of `callable(email_code_callback)`. -/
def EmailCbArg.callable : EmailCbArg → Bool
  | .callableA _ => true
  | _ => false

/-- Remote answer to `account.UpdatePasswordSettings`. -/
inductive UpdateAns
  | ok
  | emailUnconfirmed (code_length : Nat)
deriving DecidableEq, Repr

/-- The environment one `edit_2fa` call consumes: the fetched password
descriptor, the 32 fresh random bytes of `os.urandom(32)`, and the remote's
answer to the settings update. -/
structure Edit2faEnv where
  getPwdAns : PasswordDescr
  urandom : List Nat
  updateAns : UpdateAns

/-- Embedding of `edit_2fa` (auth.py 441-528). -/
def edit_2fa (env : Edit2faEnv) (current_password new_password : Option String)
    (hint : String) (email : Option String)
    (email_code_callback : EmailCbArg) :
    Except AuthError Bool × List Event :=
  if new_password.isNone && current_password.isNone then
    (.ok false, [])
  else if otruthy email && !email_code_callback.callable then
    (.error (.valueError "email present without email_code_callback"), [])
  else
    let pwd0 := env.getPwdAns
    let pwd : PasswordDescr :=
      { pwd0 with new_algo := ⟨pwd0.new_algo.salt1 ++ env.urandom⟩ }
    let current :=
      if !pwd.has_password && otruthy current_password then none
      else current_password
    let password :=
      if otruthy current then compute_check pwd (current.getD "")
      else CheckProof.empty
    let new_password_hash :=
      if otruthy new_password then compute_digest pwd.new_algo (new_password.getD "")
      else PwHash.emptyBytes
    let settings : PasswordInputSettings := ⟨pwd.new_algo, new_password_hash, hint, email⟩
    let evs := [Event.rpc .getPassword,
                Event.rpc (.updatePasswordSettings password settings)]
    match env.updateAns with
    | .ok => (.ok true, evs)
    | .emailUnconfirmed len =>
      match email_code_callback with
      | .callableA vals => (.ok true, evs ++ [.rpc (.confirmPasswordEmail (vals len))])
      | _ => (.error (.valueError "email_code_callback is not callable"), evs)

/-! ### Observations on traces -/

/-- Whether an event is a sign-in or sign-up RPC request. -/
def isAuthRpc : Event → Bool
  | .rpc (.signInReq _ _ _) => true
  | .rpc (.signUpReq _ _ _ _ _) => true
  | _ => false

/-- Number of sign-in/sign-up RPC requests in a trace. -/
def authRpcCount (tr : List Event) : Nat := (tr.filter isAuthRpc).length

/-- Whether an event is the invalid-code report printed to the user. -/
def isInvalidCodeReport : Event → Bool
  | .printInvalidCode => true
  | _ => false

/-- Number of invalid-code reports in a trace. -/
def invalidCodeReportCount (tr : List Event) : Nat :=
  (tr.filter isInvalidCodeReport).length

/-- Whether an event is the invalid-password report printed to the user. -/
def isInvalidPwdReport : Event → Bool
  | .printInvalidPassword => true
  | _ => false

/-- Number of invalid-password reports in a trace. -/
def invalidPwdReportCount (tr : List Event) : Nat :=
  (tr.filter isInvalidPwdReport).length

/-- A remote answer the code loop survives by retrying: the four transient
code errors and the two occupancy flips. -/
def transientAns : Except AuthError User → Bool
  | .error .phoneNumberOccupied => true
  | .error .phoneNumberUnoccupied => true
  | .error .phoneCodeEmpty => true
  | .error .phoneCodeExpired => true
  | .error .phoneCodeHashEmpty => true
  | .error .phoneCodeInvalid => true
  | _ => false

/-- Iteration `i` of the code loop fails transiently: the callback returned
an empty code, or (with `get_me()` still reporting no authorized user) the
issued RPC came back with a transient code error or an occupancy flip. -/
def iterFails (lenv : LoopEnv) (i : Nat) : Prop :=
  lenv.codeVal i = "" ∨
    (lenv.getMe i = none ∧ transientAns (lenv.ans i) = true)

instance (lenv : LoopEnv) (i : Nat) : Decidable (iterFails lenv i) := by
  unfold iterFails; infer_instance

/-- The state the code loop runs in after `send_code_request` succeeded for
the active phone `p`: `p` is stored as the session phone and cached together
with a nonempty code hash `hsh`. -/
structure LoopReady (st : ClientState) (phone : Option String) (p hsh : String) : Prop where
  phone_eq : phone = some p
  st_phone : st.phone = some p
  p_ne : p ≠ ""
  cached : hashGet st.phoneCodeHash (some p) = some hsh
  hsh_ne : hsh ≠ ""

/-- The four transient code errors the sign-in/up RPC can come back with. -/
def isCodeError : AuthError → Bool
  | .phoneCodeEmpty => true
  | .phoneCodeExpired => true
  | .phoneCodeHashEmpty => true
  | .phoneCodeInvalid => true
  | _ => false

/-- The client state `send_code_request` leaves behind on a fresh phone:
terms of service and code hash cached, normalized phone stored. -/
def afterSend (st : ClientState) (p : String) (r : SentCode) : ClientState :=
  { st with tos := r.terms_of_service,
            phoneCodeHash := hashSet st.phoneCodeHash (some p) r.phone_code_hash,
            phone := some p }

/-! ### Witness fixtures: a connected, unauthorized client and a benign
remote environment, used to instantiate the theorems below on concrete
inputs. -/

def witSt : ClientState := ⟨true, false, none, none, none, [], none, none, true⟩

def witUser : User := ⟨7, false, "W"⟩

def witBotUser : User := ⟨9, true, "B"⟩

def witSent : SentCode := ⟨true, "H", none⟩

def witSentU : SentCode := ⟨false, "H", none⟩

def witStartEnv : StartEnv :=
  ⟨false, fun _ => "1", fun _ => none, fun _ => .error .phoneCodeInvalid,
   fun _ => none, fun _ => dummyPwd, fun _ => .error .passwordHashInvalid,
   fun _ => [], fun _ => dummySent, [.ok witSent], dummySent,
   none, .ok witBotUser, 1, none⟩

def witPwdEnv : StartEnv :=
  ⟨false, fun _ => "1", fun _ => none, fun _ => .error .sessionPasswordNeeded,
   fun _ => none, fun _ => dummyPwd,
   fun j => if j = 0 then .error .passwordHashInvalid else .ok witUser,
   fun _ => [], fun _ => dummySent, [.ok witSent], dummySent,
   none, .ok witBotUser, 1, none⟩

def witUnregEnv : StartEnv :=
  ⟨false, fun _ => "1", fun _ => none, fun _ => .ok witUser,
   fun _ => none, fun _ => dummyPwd, fun _ => .error .passwordHashInvalid,
   fun _ => [], fun _ => dummySent, [.ok witSentU], dummySent,
   none, .ok witBotUser, 1, none⟩

/-! ### Basic lemmas -/

theorem hashGet_hashSet_self (m : List (Option String × String)) (k : Option String)
    (v : String) : hashGet (hashSet m k v) k = some v := by
  simp [hashGet, hashSet]

theorem isEmpty_false_of_ne (s : String) (h : s ≠ "") : s.isEmpty = false := by
  cases he : s.isEmpty
  · rfl
  · exact absurd ((String.isEmpty_iff s).mp he) h

theorem parse_hash_arg (st : ClientState) (p hsh : String)
    (hp : p ≠ "") (hh : hashGet st.phoneCodeHash (some p) = some hsh)
    (hs : hsh ≠ "") :
    _parse_phone_and_hash st (some p) none = .ok (p, hsh) := by
  simp [_parse_phone_and_hash, parse_phone, otruthy, Option.orElse, hh,
    isEmpty_false_of_ne p hp, isEmpty_false_of_ne hsh hs]

theorem parse_hash_selfphone (st : ClientState) (p hsh : String)
    (hstp : st.phone = some p) (hp : p ≠ "")
    (hh : hashGet st.phoneCodeHash (some p) = some hsh) (hs : hsh ≠ "") :
    _parse_phone_and_hash st none none = .ok (p, hsh) := by
  simp [_parse_phone_and_hash, parse_phone, otruthy, Option.orElse, hstp, hh,
    isEmpty_false_of_ne p hp, isEmpty_false_of_ne hsh hs]

/-! ### One-iteration unfolding lemmas for the code loop -/

theorem code_loop_step_empty (lenv : LoopEnv) (st : ClientState) (phone : Option String)
    (f l : String) (su : Bool) (k N : Nat) (hk : k < N) (hv : lenv.codeVal k = "") :
    code_loop lenv st phone f l su k N =
      (code_loop lenv st phone f l su (k + 1) N).map
        (fun r => ⟨r.exit, r.st, r.attempts, Event.printInvalidCode :: r.trace⟩) := by
  conv_lhs => rw [code_loop]
  simp +decide [hk, hv]

theorem code_loop_signin_ok (lenv : LoopEnv) (st : ClientState) (phone : Option String)
    (f l : String) (k N : Nat) (p hsh : String) (u : User)
    (hk : k < N) (ready : LoopReady st phone p hsh)
    (hv : lenv.codeVal k ≠ "") (hme : lenv.getMe k = none)
    (hans : lenv.ans k = .ok u) :
    code_loop lenv st phone f l false k N =
      some ⟨.success (.user u), _on_login st u, k,
        [.rpc (.signInReq p hsh (lenv.codeVal k))]⟩ := by
  conv_lhs => rw [code_loop]
  simp +decide [hk, ready.phone_eq, hme, hans, sign_in, otruthy,
    isEmpty_false_of_ne _ hv,
    parse_hash_arg st p hsh ready.p_ne ready.cached ready.hsh_ne]

theorem code_loop_signin_twostep (lenv : LoopEnv) (st : ClientState) (phone : Option String)
    (f l : String) (k N : Nat) (p hsh : String)
    (hk : k < N) (ready : LoopReady st phone p hsh)
    (hv : lenv.codeVal k ≠ "") (hme : lenv.getMe k = none)
    (hans : lenv.ans k = .error .sessionPasswordNeeded) :
    code_loop lenv st phone f l false k N =
      some ⟨.twoStep, st, k, [.rpc (.signInReq p hsh (lenv.codeVal k))]⟩ := by
  conv_lhs => rw [code_loop]
  simp +decide [hk, ready.phone_eq, hme, hans, sign_in, otruthy,
    isEmpty_false_of_ne _ hv,
    parse_hash_arg st p hsh ready.p_ne ready.cached ready.hsh_ne]

theorem code_loop_signin_occupied (lenv : LoopEnv) (st : ClientState) (phone : Option String)
    (f l : String) (k N : Nat) (p hsh : String)
    (hk : k < N) (ready : LoopReady st phone p hsh)
    (hv : lenv.codeVal k ≠ "") (hme : lenv.getMe k = none)
    (hans : lenv.ans k = .error .phoneNumberOccupied) :
    code_loop lenv st phone f l false k N =
      (code_loop lenv st phone f l false (k + 1) N).map
        (fun r => ⟨r.exit, r.st, r.attempts,
          Event.rpc (.signInReq p hsh (lenv.codeVal k)) :: r.trace⟩) := by
  conv_lhs => rw [code_loop]
  simp +decide [hk, ready.phone_eq, hme, hans, sign_in, otruthy,
    isEmpty_false_of_ne _ hv,
    parse_hash_arg st p hsh ready.p_ne ready.cached ready.hsh_ne]

theorem code_loop_signin_unoccupied (lenv : LoopEnv) (st : ClientState) (phone : Option String)
    (f l : String) (k N : Nat) (p hsh : String)
    (hk : k < N) (ready : LoopReady st phone p hsh)
    (hv : lenv.codeVal k ≠ "") (hme : lenv.getMe k = none)
    (hans : lenv.ans k = .error .phoneNumberUnoccupied) :
    code_loop lenv st phone f l false k N =
      (code_loop lenv st phone f l true (k + 1) N).map
        (fun r => ⟨r.exit, r.st, r.attempts,
          Event.rpc (.signInReq p hsh (lenv.codeVal k)) :: r.trace⟩) := by
  conv_lhs => rw [code_loop]
  simp +decide [hk, ready.phone_eq, hme, hans, sign_in, otruthy,
    isEmpty_false_of_ne _ hv,
    parse_hash_arg st p hsh ready.p_ne ready.cached ready.hsh_ne]

theorem code_loop_signin_codeerr (lenv : LoopEnv) (st : ClientState) (phone : Option String)
    (f l : String) (k N : Nat) (p hsh : String) (e : AuthError)
    (hk : k < N) (ready : LoopReady st phone p hsh)
    (hv : lenv.codeVal k ≠ "") (hme : lenv.getMe k = none)
    (he : isCodeError e = true) (hans : lenv.ans k = .error e) :
    code_loop lenv st phone f l false k N =
      (code_loop lenv st phone f l false (k + 1) N).map
        (fun r => ⟨r.exit, r.st, r.attempts,
          Event.rpc (.signInReq p hsh (lenv.codeVal k)) ::
            Event.printInvalidCode :: r.trace⟩) := by
  conv_lhs => rw [code_loop]
  cases e <;> simp [isCodeError] at he <;>
    simp +decide [hk, ready.phone_eq, hme, hans, sign_in, otruthy,
      isEmpty_false_of_ne _ hv,
      parse_hash_arg st p hsh ready.p_ne ready.cached ready.hsh_ne]

theorem code_loop_signup_ok (lenv : LoopEnv) (st : ClientState) (phone : Option String)
    (f l : String) (k N : Nat) (p hsh : String) (u : User)
    (hk : k < N) (ready : LoopReady st phone p hsh)
    (hv : lenv.codeVal k ≠ "") (hme : lenv.getMe k = none)
    (hans : lenv.ans k = .ok u) :
    code_loop lenv st phone f l true k N =
      some ⟨.success (.user u), _on_login st u, k,
        tosEvents st ++ Event.rpc (.signUpReq p hsh (lenv.codeVal k) f l) ::
          acceptTosEvents st⟩ := by
  conv_lhs => rw [code_loop]
  simp +decide [hk, hme, hans, sign_up, otruthy, Except.map,
    isEmpty_false_of_ne _ hv,
    parse_hash_selfphone st p hsh ready.st_phone ready.p_ne ready.cached ready.hsh_ne]

theorem code_loop_signup_twostep (lenv : LoopEnv) (st : ClientState) (phone : Option String)
    (f l : String) (k N : Nat) (p hsh : String)
    (hk : k < N) (ready : LoopReady st phone p hsh)
    (hv : lenv.codeVal k ≠ "") (hme : lenv.getMe k = none)
    (hans : lenv.ans k = .error .sessionPasswordNeeded) :
    code_loop lenv st phone f l true k N =
      some ⟨.twoStep, st, k,
        tosEvents st ++ [Event.rpc (.signUpReq p hsh (lenv.codeVal k) f l)]⟩ := by
  conv_lhs => rw [code_loop]
  simp +decide [hk, hme, hans, sign_up, otruthy, Except.map,
    isEmpty_false_of_ne _ hv,
    parse_hash_selfphone st p hsh ready.st_phone ready.p_ne ready.cached ready.hsh_ne]

theorem code_loop_signup_occupied (lenv : LoopEnv) (st : ClientState) (phone : Option String)
    (f l : String) (k N : Nat) (p hsh : String)
    (hk : k < N) (ready : LoopReady st phone p hsh)
    (hv : lenv.codeVal k ≠ "") (hme : lenv.getMe k = none)
    (hans : lenv.ans k = .error .phoneNumberOccupied) :
    code_loop lenv st phone f l true k N =
      (code_loop lenv st phone f l false (k + 1) N).map
        (fun r => ⟨r.exit, r.st, r.attempts,
          tosEvents st ++ Event.rpc (.signUpReq p hsh (lenv.codeVal k) f l) :: r.trace⟩) := by
  conv_lhs => rw [code_loop]
  simp +decide [hk, hme, hans, sign_up, otruthy, Except.map,
    isEmpty_false_of_ne _ hv,
    parse_hash_selfphone st p hsh ready.st_phone ready.p_ne ready.cached ready.hsh_ne]

theorem code_loop_signup_unoccupied (lenv : LoopEnv) (st : ClientState) (phone : Option String)
    (f l : String) (k N : Nat) (p hsh : String)
    (hk : k < N) (ready : LoopReady st phone p hsh)
    (hv : lenv.codeVal k ≠ "") (hme : lenv.getMe k = none)
    (hans : lenv.ans k = .error .phoneNumberUnoccupied) :
    code_loop lenv st phone f l true k N =
      (code_loop lenv st phone f l true (k + 1) N).map
        (fun r => ⟨r.exit, r.st, r.attempts,
          tosEvents st ++ Event.rpc (.signUpReq p hsh (lenv.codeVal k) f l) :: r.trace⟩) := by
  conv_lhs => rw [code_loop]
  simp +decide [hk, hme, hans, sign_up, otruthy, Except.map,
    isEmpty_false_of_ne _ hv,
    parse_hash_selfphone st p hsh ready.st_phone ready.p_ne ready.cached ready.hsh_ne]

theorem code_loop_signup_codeerr (lenv : LoopEnv) (st : ClientState) (phone : Option String)
    (f l : String) (k N : Nat) (p hsh : String) (e : AuthError)
    (hk : k < N) (ready : LoopReady st phone p hsh)
    (hv : lenv.codeVal k ≠ "") (hme : lenv.getMe k = none)
    (he : isCodeError e = true) (hans : lenv.ans k = .error e) :
    code_loop lenv st phone f l true k N =
      (code_loop lenv st phone f l true (k + 1) N).map
        (fun r => ⟨r.exit, r.st, r.attempts,
          (tosEvents st ++ [Event.rpc (.signUpReq p hsh (lenv.codeVal k) f l)]) ++
            Event.printInvalidCode :: r.trace⟩) := by
  conv_lhs => rw [code_loop]
  cases e <;> simp [isCodeError] at he <;>
    simp +decide [hk, hme, hans, sign_up, otruthy, Except.map,
      isEmpty_false_of_ne _ hv,
      parse_hash_selfphone st p hsh ready.st_phone ready.p_ne ready.cached ready.hsh_ne]

theorem code_loop_stop (lenv : LoopEnv) (st : ClientState) (phone : Option String)
    (f l : String) (su : Bool) (k N : Nat) (hk : ¬ k < N) :
    code_loop lenv st phone f l su k N = some ⟨.exhausted, st, k, []⟩ := by
  rw [code_loop]
  simp [hk]

/-! ### Trace counting lemmas -/

theorem authRpcCount_append (a b : List Event) :
    authRpcCount (a ++ b) = authRpcCount a + authRpcCount b := by
  simp [authRpcCount, List.filter_append]

theorem invalidPwdReportCount_append (a b : List Event) :
    invalidPwdReportCount (a ++ b) =
      invalidPwdReportCount a + invalidPwdReportCount b := by
  simp [invalidPwdReportCount, List.filter_append]

theorem invalidCodeReportCount_append (a b : List Event) :
    invalidCodeReportCount (a ++ b) =
      invalidCodeReportCount a + invalidCodeReportCount b := by
  simp [invalidCodeReportCount, List.filter_append]

theorem authRpcCount_cons_not (e : Event) (tr : List Event)
    (h : isAuthRpc e = false) : authRpcCount (e :: tr) = authRpcCount tr := by
  simp [authRpcCount, List.filter_cons, h]

theorem invalidPwdReportCount_cons_not (e : Event) (tr : List Event)
    (h : isInvalidPwdReport e = false) :
    invalidPwdReportCount (e :: tr) = invalidPwdReportCount tr := by
  simp [invalidPwdReportCount, List.filter_cons, h]

theorem authRpcCount_tos (st : ClientState) : authRpcCount (tosEvents st) = 0 := by
  unfold tosEvents
  cases st.tos with
  | none => rfl
  | some t =>
    by_cases h : t.text.isEmpty <;> simp [h, authRpcCount, isAuthRpc]

theorem invalidCodeReportCount_tos (st : ClientState) :
    invalidCodeReportCount (tosEvents st) = 0 := by
  unfold tosEvents
  cases st.tos with
  | none => rfl
  | some t =>
    by_cases h : t.text.isEmpty <;>
      simp [h, invalidCodeReportCount, isInvalidCodeReport]

theorem find?_auth_tos (st : ClientState) :
    (tosEvents st).find? isAuthRpc = none := by
  unfold tosEvents
  cases st.tos with
  | none => rfl
  | some t =>
    by_cases h : t.text.isEmpty <;> simp [h, List.find?, isAuthRpc]

theorem invalidPwdReportCount_tos (st : ClientState) :
    invalidPwdReportCount (tosEvents st) = 0 := by
  unfold tosEvents
  cases st.tos with
  | none => rfl
  | some t =>
    by_cases h : t.text.isEmpty <;>
      simp [h, invalidPwdReportCount, isInvalidPwdReport]

/-! ### Aggregate runs of the code loop -/

/-- Any transiently failing iteration recurses at `attempts + 1` with an
unchanged client state and contributes at most one sign-in/up RPC. -/
theorem code_loop_fail_step (lenv : LoopEnv) (st : ClientState) (phone : Option String)
    (f l : String) (su : Bool) (k N : Nat) (p hsh : String)
    (hk : k < N) (ready : LoopReady st phone p hsh) (hfail : iterFails lenv k) :
    ∃ su2 pre, code_loop lenv st phone f l su k N =
        (code_loop lenv st phone f l su2 (k + 1) N).map
          (fun r => ⟨r.exit, r.st, r.attempts, pre ++ r.trace⟩) ∧
      authRpcCount pre ≤ 1 ∧ invalidPwdReportCount pre = 0 := by
  by_cases hv : lenv.codeVal k = ""
  · refine ⟨su, [.printInvalidCode], ?_, by decide, by decide⟩
    rw [code_loop_step_empty lenv st phone f l su k N hk hv]
    simp
  · rcases hfail with hve | ⟨hme, htr⟩
    · exact absurd hve hv
    · rcases hans : lenv.ans k with e | u
      case _ =>
        rw [hans] at htr
        by_cases hce : isCodeError e = true
        · cases su
          · refine ⟨false,
              [.rpc (.signInReq p hsh (lenv.codeVal k)), .printInvalidCode], ?_,
              by simp [authRpcCount, isAuthRpc],
              by simp [invalidPwdReportCount, isInvalidPwdReport]⟩
            rw [code_loop_signin_codeerr lenv st phone f l k N p hsh e hk ready hv hme hce hans]
            simp
          · refine ⟨true,
              (tosEvents st ++ [.rpc (.signUpReq p hsh (lenv.codeVal k) f l)]) ++
                [.printInvalidCode], ?_, ?_, ?_⟩
            · rw [code_loop_signup_codeerr lenv st phone f l k N p hsh e hk ready hv hme hce hans]
              simp
            · rw [authRpcCount_append, authRpcCount_append, authRpcCount_tos]
              simp [authRpcCount, isAuthRpc]
            · rw [invalidPwdReportCount_append, invalidPwdReportCount_append,
                invalidPwdReportCount_tos]
              simp [invalidPwdReportCount, isInvalidPwdReport]
        · cases e <;> simp [transientAns] at htr <;> simp [isCodeError] at hce
          · -- PhoneNumberOccupiedError: flip to sign-in
            cases su
            · refine ⟨false, [.rpc (.signInReq p hsh (lenv.codeVal k))], ?_,
                by simp [authRpcCount, isAuthRpc],
                by simp [invalidPwdReportCount, isInvalidPwdReport]⟩
              rw [code_loop_signin_occupied lenv st phone f l k N p hsh hk ready hv hme hans]
              simp
            · refine ⟨false,
                tosEvents st ++ [.rpc (.signUpReq p hsh (lenv.codeVal k) f l)], ?_, ?_, ?_⟩
              · rw [code_loop_signup_occupied lenv st phone f l k N p hsh hk ready hv hme hans]
                simp
              · rw [authRpcCount_append, authRpcCount_tos]
                simp [authRpcCount, isAuthRpc]
              · rw [invalidPwdReportCount_append, invalidPwdReportCount_tos]
                simp [invalidPwdReportCount, isInvalidPwdReport]
          · -- PhoneNumberUnoccupiedError: flip to sign-up
            cases su
            · refine ⟨true, [.rpc (.signInReq p hsh (lenv.codeVal k))], ?_,
                by simp [authRpcCount, isAuthRpc],
                by simp [invalidPwdReportCount, isInvalidPwdReport]⟩
              rw [code_loop_signin_unoccupied lenv st phone f l k N p hsh hk ready hv hme hans]
              simp
            · refine ⟨true,
                tosEvents st ++ [.rpc (.signUpReq p hsh (lenv.codeVal k) f l)], ?_, ?_, ?_⟩
              · rw [code_loop_signup_unoccupied lenv st phone f l k N p hsh hk ready hv hme hans]
                simp
              · rw [authRpcCount_append, authRpcCount_tos]
                simp [authRpcCount, isAuthRpc]
              · rw [invalidPwdReportCount_append, invalidPwdReportCount_tos]
                simp [invalidPwdReportCount, isInvalidPwdReport]
      case _ =>
        rw [hans] at htr; simp [transientAns] at htr

/-- If every iteration up to the budget fails transiently, the loop runs the
`while`-`else` clause: it exits `exhausted` with `attempts = max_attempts`,
an unchanged client state, and at most one sign-in/up RPC per attempt. -/
theorem code_loop_all_fail (lenv : LoopEnv) (st : ClientState) (phone : Option String)
    (f l : String) (p hsh : String) (N : Nat)
    (ready : LoopReady st phone p hsh)
    (hfails : ∀ i, i < N → iterFails lenv i) :
    ∀ n k su, N = k + n →
      ∃ tr, code_loop lenv st phone f l su k N = some ⟨.exhausted, st, N, tr⟩ ∧
        authRpcCount tr ≤ n := by
  intro n
  induction n with
  | zero =>
    intro k su hN
    refine ⟨[], ?_, by simp [authRpcCount]⟩
    have hk : ¬ k < N := by omega
    rw [code_loop_stop lenv st phone f l su k N hk]
    have : k = N := by omega
    rw [this]
  | succ n ih =>
    intro k su hN
    have hk : k < N := by omega
    obtain ⟨su2, pre, heq, hcount, hpwd⟩ :=
      code_loop_fail_step lenv st phone f l su k N p hsh hk ready (hfails k hk)
    obtain ⟨tr, htr, hc2⟩ := ih (k + 1) su2 (by omega)
    refine ⟨pre ++ tr, ?_, ?_⟩
    · rw [heq, htr]; rfl
    · rw [authRpcCount_append]; omega

/-- Running the loop past `n` transiently failing iterations only prefixes
the trace and may change the branch flag. -/
theorem code_loop_skip (lenv : LoopEnv) (st : ClientState) (phone : Option String)
    (f l : String) (p hsh : String) (N : Nat)
    (ready : LoopReady st phone p hsh) :
    ∀ n j m su, j + n = m → m ≤ N → (∀ i, i < m → iterFails lenv i) →
      ∃ su2 pre, code_loop lenv st phone f l su j N =
          (code_loop lenv st phone f l su2 m N).map
            (fun r => ⟨r.exit, r.st, r.attempts, pre ++ r.trace⟩) ∧
        authRpcCount pre ≤ n ∧ invalidPwdReportCount pre = 0 := by
  intro n
  induction n with
  | zero =>
    intro j m su hj hm hfails
    have : j = m := by omega
    subst this
    refine ⟨su, [], ?_, by simp [authRpcCount], by simp [invalidPwdReportCount]⟩
    simp
  | succ n ih =>
    intro j m su hj hm hfails
    have hk : j < N := by omega
    obtain ⟨su2, pre, heq, hcount, hpwd⟩ :=
      code_loop_fail_step lenv st phone f l su j N p hsh hk ready
        (hfails j (by omega))
    obtain ⟨su3, pre2, heq2, hc2, hpwd2⟩ := ih (j + 1) m su2 (by omega) hm hfails
    refine ⟨su3, pre ++ pre2, ?_, ?_, ?_⟩
    · rw [heq, heq2]
      simp [Option.map_map]
      rfl
    · rw [authRpcCount_append]; omega
    · rw [invalidPwdReportCount_append]; omega

/-- A successful submission ends the loop at the current `attempts` value,
committing the user through `_on_login`, under either branch flag. -/
theorem code_loop_success_any (lenv : LoopEnv) (st : ClientState) (phone : Option String)
    (f l : String) (k N : Nat) (p hsh : String) (u : User) (su : Bool)
    (hk : k < N) (ready : LoopReady st phone p hsh)
    (hv : lenv.codeVal k ≠ "") (hme : lenv.getMe k = none)
    (hans : lenv.ans k = .ok u) :
    ∃ tr, code_loop lenv st phone f l su k N =
      some ⟨.success (.user u), _on_login st u, k, tr⟩ := by
  cases su
  · exact ⟨_, code_loop_signin_ok lenv st phone f l k N p hsh u hk ready hv hme hans⟩
  · exact ⟨_, code_loop_signup_ok lenv st phone f l k N p hsh u hk ready hv hme hans⟩

/-- A password-required answer ends the loop at the current `attempts`
value with an unchanged client state, under either branch flag. -/
theorem code_loop_twostep_any (lenv : LoopEnv) (st : ClientState) (phone : Option String)
    (f l : String) (k N : Nat) (p hsh : String) (su : Bool)
    (hk : k < N) (ready : LoopReady st phone p hsh)
    (hv : lenv.codeVal k ≠ "") (hme : lenv.getMe k = none)
    (hans : lenv.ans k = .error .sessionPasswordNeeded) :
    ∃ tr, code_loop lenv st phone f l su k N = some ⟨.twoStep, st, k, tr⟩ ∧
      invalidPwdReportCount tr = 0 := by
  cases su
  · exact ⟨_, code_loop_signin_twostep lenv st phone f l k N p hsh hk ready hv hme hans,
      by simp [invalidPwdReportCount, isInvalidPwdReport]⟩
  · refine ⟨_, code_loop_signup_twostep lenv st phone f l k N p hsh hk ready hv hme hans, ?_⟩
    rw [invalidPwdReportCount_append, invalidPwdReportCount_tos]
    simp [invalidPwdReportCount, isInvalidPwdReport]

/-! ### One-iteration unfolding lemmas for the 2FA password loop -/

theorem password_loop_invalid_step (penv : PwdLoopEnv) (st : ClientState)
    (phone : Option String) (j N : Nat)
    (hk : j < N) (hpv : penv.pwdVal j ≠ "") (hme : penv.getMe j = none)
    (hans : penv.checkAns j = .error .passwordHashInvalid) :
    password_loop penv st phone j N =
      (password_loop penv st phone (j + 1) N).map
        (fun r => ⟨r.exit, r.st, r.used,
          Event.rpc .getPassword ::
            Event.rpc (.checkPassword (compute_check (penv.getPwdAns j) (penv.pwdVal j))) ::
            Event.printInvalidPassword :: r.trace⟩) := by
  conv_lhs => rw [password_loop]
  simp +decide [hk, hme, hans, sign_in, otruthy, isEmpty_false_of_ne _ hpv]

theorem password_loop_ok_step (penv : PwdLoopEnv) (st : ClientState)
    (phone : Option String) (j N : Nat) (u : User)
    (hk : j < N) (hpv : penv.pwdVal j ≠ "") (hme : penv.getMe j = none)
    (hans : penv.checkAns j = .ok u) :
    password_loop penv st phone j N =
      some ⟨.success (.user u), _on_login st u, j,
        [Event.rpc .getPassword,
         Event.rpc (.checkPassword (compute_check (penv.getPwdAns j) (penv.pwdVal j)))]⟩ := by
  conv_lhs => rw [password_loop]
  simp +decide [hk, hme, hans, sign_in, otruthy, isEmpty_false_of_ne _ hpv]

theorem password_loop_stop (penv : PwdLoopEnv) (st : ClientState)
    (phone : Option String) (j N : Nat) (hk : ¬ j < N) :
    password_loop penv st phone j N = some ⟨.exhausted, st, j, []⟩ := by
  rw [password_loop]
  simp [hk]

/-- An iteration of the password loop where the submitted password is
reported invalid: one `GetPassword` and one `CheckPassword` RPC, one
invalid-password report, and the loop continues at `i + 1`. -/
theorem password_loop_all_invalid (penv : PwdLoopEnv) (st : ClientState)
    (phone : Option String) (N : Nat)
    (hall : ∀ j, j < N → penv.pwdVal j ≠ "" ∧ penv.getMe j = none ∧
      penv.checkAns j = .error .passwordHashInvalid) :
    ∀ n j, N = j + n →
      ∃ tr, password_loop penv st phone j N = some ⟨.exhausted, st, N, tr⟩ ∧
        invalidPwdReportCount tr = n := by
  intro n
  induction n with
  | zero =>
    intro j hN
    refine ⟨[], ?_, by simp [invalidPwdReportCount]⟩
    have hk : ¬ j < N := by omega
    rw [password_loop_stop penv st phone j N hk]
    have : j = N := by omega
    rw [this]
  | succ n ih =>
    intro j hN
    have hk : j < N := by omega
    obtain ⟨hpv, hme, hans⟩ := hall j hk
    obtain ⟨tr, htr, hc⟩ := ih (j + 1) (by omega)
    refine ⟨Event.rpc .getPassword ::
      Event.rpc (.checkPassword (compute_check (penv.getPwdAns j) (penv.pwdVal j))) ::
      Event.printInvalidPassword :: tr, ?_, ?_⟩
    · rw [password_loop_invalid_step penv st phone j N hk hpv hme hans, htr]
      rfl
    · simp [invalidPwdReportCount, List.filter, isInvalidPwdReport] at hc ⊢
      omega

/-- Running the password loop past `n` invalid submissions only prefixes
the trace with `n` report-and-retry blocks. -/
theorem password_loop_skip (penv : PwdLoopEnv) (st : ClientState)
    (phone : Option String) (N : Nat) :
    ∀ n j m, j + n = m → m ≤ N →
      (∀ i, i < m → penv.pwdVal i ≠ "" ∧ penv.getMe i = none ∧
        penv.checkAns i = .error .passwordHashInvalid) →
      ∃ pre, password_loop penv st phone j N =
          (password_loop penv st phone m N).map
            (fun r => ⟨r.exit, r.st, r.used, pre ++ r.trace⟩) ∧
        invalidPwdReportCount pre = n := by
  intro n
  induction n with
  | zero =>
    intro j m hj hm hall
    have : j = m := by omega
    subst this
    refine ⟨[], ?_, by simp [invalidPwdReportCount]⟩
    simp
  | succ n ih =>
    intro j m hj hm hall
    have hk : j < N := by omega
    obtain ⟨hpv, hme, hans⟩ := hall j (by omega)
    obtain ⟨pre, heq, hc⟩ := ih (j + 1) m (by omega) hm hall
    refine ⟨Event.rpc .getPassword ::
      Event.rpc (.checkPassword (compute_check (penv.getPwdAns j) (penv.pwdVal j))) ::
      Event.printInvalidPassword :: pre, ?_, ?_⟩
    · rw [password_loop_invalid_step penv st phone j N hk hpv hme hans, heq]
      simp [Option.map_map]
      rfl
    · simp [invalidPwdReportCount, List.filter, isInvalidPwdReport] at hc ⊢
      omega

/-! ### `_start` reduction lemmas for the phone path -/

/-- Running `send_code_request` on a fresh phone with a non-restarting remote:
exactly one `SendCode` RPC; hash and terms of service are cached. -/
theorem send_code_fresh (st : ClientState) (p : String) (r resend : SentCode)
    (hp : p ≠ "") (hnc : hashGet st.phoneCodeHash (some p) = none) :
    send_code_request st (some p) false [.ok r] resend =
      some (r, afterSend st p r, [.rpc (.sendCode (some p))]) := by
  rw [send_code_request]
  simp [afterSend, parse_phone, Option.orElse, otruthy, isEmpty_false_of_ne p hp, hnc]

theorem ready_afterSend (st : ClientState) (p : String) (r : SentCode)
    (hp : p ≠ "") (hhash : r.phone_code_hash ≠ "") :
    LoopReady (afterSend st p r) (some p) p r.phone_code_hash :=
  ⟨rfl, rfl, hp, hashGet_hashSet_self st.phoneCodeHash (some p) r.phone_code_hash, hhash⟩

theorem _start_phone_exhausted (st : ClientState) (env : StartEnv)
    (password : PasswordArg) (p : String) (r : SentCode) (cv : Nat → String)
    (f l : String) (N : Nat) (st2 : ClientState) (a : Nat) (tr : List Event)
    (hconn : st.connected = true) (hauth : env.isAuthorized = false)
    (hp : p ≠ "") (hnc : hashGet st.phoneCodeHash (some p) = none)
    (hsends : env.sends = [.ok r])
    (hloop : code_loop ⟨cv, env.codeGetMe, env.codeAns⟩ (afterSend st p r)
      (some p) f l (!r.phone_registered) 0 N = some ⟨.exhausted, st2, a, tr⟩) :
    _start st env (.strA p) password none false cv f l N =
      some (.error (.runtimeError
          (toString N ++ " consecutive sign-in attempts failed. Aborting")),
        st2, .rpc (.sendCode (some p)) :: tr) := by
  simp [_start, hconn, hauth, otruthy, hsends,
    send_code_fresh st p r env.resend hp hnc, hloop]

theorem _start_phone_success (st : ClientState) (env : StartEnv)
    (password : PasswordArg) (p : String) (r : SentCode) (cv : Nat → String)
    (f l : String) (N : Nat) (st2 : ClientState) (a : Nat) (tr : List Event)
    (me : SignInRet)
    (hconn : st.connected = true) (hauth : env.isAuthorized = false)
    (hp : p ≠ "") (hnc : hashGet st.phoneCodeHash (some p) = none)
    (hsends : env.sends = [.ok r])
    (hloop : code_loop ⟨cv, env.codeGetMe, env.codeAns⟩ (afterSend st p r)
      (some p) f l (!r.phone_registered) 0 N = some ⟨.success me, st2, a, tr⟩) :
    _start st env (.strA p) password none false cv f l N =
      some (.ok (), st2,
        .rpc (.sendCode (some p)) :: (tr ++ [.printSignedIn (get_display_name me)])) := by
  simp [_start, hconn, hauth, otruthy, hsends,
    send_code_fresh st p r env.resend hp hnc, hloop]

theorem _start_phone_twostep_pwd_exhausted (st : ClientState) (env : StartEnv)
    (pv : Nat → String) (p : String) (r : SentCode) (cv : Nat → String)
    (f l : String) (N : Nat) (st2 st3 : ClientState) (a a2 : Nat) (tr ptr : List Event)
    (hconn : st.connected = true) (hauth : env.isAuthorized = false)
    (hp : p ≠ "") (hnc : hashGet st.phoneCodeHash (some p) = none)
    (hsends : env.sends = [.ok r])
    (hloop : code_loop ⟨cv, env.codeGetMe, env.codeAns⟩ (afterSend st p r)
      (some p) f l (!r.phone_registered) 0 N = some ⟨.twoStep, st2, a, tr⟩)
    (hpw : password_loop ⟨pv, env.pwdGetMe, env.pwdGetPwdAns, env.pwdCheckAns,
        env.pwdSends, env.pwdResend⟩ st2 (some p) 0 N =
      some ⟨.exhausted, st3, a2, ptr⟩) :
    _start st env (.strA p) (.cbA pv) none false cv f l N =
      some (.error .passwordHashInvalid, st3,
        .rpc (.sendCode (some p)) :: (tr ++ ptr)) := by
  simp [_start, hconn, hauth, otruthy, hsends, PasswordArg.truthy,
    send_code_fresh st p r env.resend hp hnc, hloop, hpw]

theorem _start_phone_twostep_pwd_success (st : ClientState) (env : StartEnv)
    (pv : Nat → String) (p : String) (r : SentCode) (cv : Nat → String)
    (f l : String) (N : Nat) (st2 st3 : ClientState) (a a2 : Nat) (tr ptr : List Event)
    (me : SignInRet)
    (hconn : st.connected = true) (hauth : env.isAuthorized = false)
    (hp : p ≠ "") (hnc : hashGet st.phoneCodeHash (some p) = none)
    (hsends : env.sends = [.ok r])
    (hloop : code_loop ⟨cv, env.codeGetMe, env.codeAns⟩ (afterSend st p r)
      (some p) f l (!r.phone_registered) 0 N = some ⟨.twoStep, st2, a, tr⟩)
    (hpw : password_loop ⟨pv, env.pwdGetMe, env.pwdGetPwdAns, env.pwdCheckAns,
        env.pwdSends, env.pwdResend⟩ st2 (some p) 0 N =
      some ⟨.success me, st3, a2, ptr⟩) :
    _start st env (.strA p) (.cbA pv) none false cv f l N =
      some (.ok (), st3,
        .rpc (.sendCode (some p)) ::
          (tr ++ (ptr ++ [.printSignedIn (get_display_name me)]))) := by
  simp [_start, hconn, hauth, otruthy, hsends, PasswordArg.truthy,
    send_code_fresh st p r env.resend hp hnc, hloop, hpw]


/-! ### Claim theorems -/

/-- C6: `log_out` issues the logout RPC; on RPC failure it returns `false`
and leaves the bot flag, self-peer reference, authorized flag, cached
phone/hash state, update-state cache and persisted session unchanged (the
whole client state is returned as it was); on RPC success it clears the bot
flag, self-peer reference and authorized flag, resets the cached update
state, disconnects the transport, deletes the persisted session data, and
returns `true`. -/
theorem log_out_spec (st : ClientState) :
    log_out st false = (false, st, [.rpc .logOutReq]) ∧
    log_out st true =
      (true,
       { st with bot := none, selfInputPeer := none, authorized := false,
                 updateState := none, connected := false, sessionSaved := false },
       [.rpc .logOutReq]) :=
  ⟨rfl, rfl⟩

/-- C5: for a phone with no cached hash, `send_code_request` issues exactly
one send-code RPC and caches the returned hash and terms of service; a
subsequent call for the same phone issues a resend RPC with the cached hash
instead of a second send-code RPC, replacing the cached hash with the hash
the resend returns; and `force_sms = true` triggers the resend path right
after the initial send, also refreshing the cached hash. -/
theorem send_code_request_cache_spec (st : ClientState) (p : String)
    (r resend : SentCode) (sends : List SendCodeRpcResult)
    (hp : p ≠ "") (hnc : hashGet st.phoneCodeHash (some p) = none)
    (hr : r.phone_code_hash ≠ "") :
    send_code_request st (some p) false [.ok r] resend =
      some (r, afterSend st p r, [.rpc (.sendCode (some p))]) ∧
    (afterSend st p r).tos = r.terms_of_service ∧
    hashGet (afterSend st p r).phoneCodeHash (some p) = some r.phone_code_hash ∧
    send_code_request (afterSend st p r) (some p) false sends resend =
      some (resend,
        { afterSend st p r with
            phone := some p,
            phoneCodeHash :=
              hashSet (afterSend st p r).phoneCodeHash (some p) resend.phone_code_hash },
        [.rpc (.resendCode (some p) r.phone_code_hash)]) ∧
    hashGet (hashSet (afterSend st p r).phoneCodeHash (some p) resend.phone_code_hash)
      (some p) = some resend.phone_code_hash ∧
    send_code_request st (some p) true [.ok r] resend =
      some (resend,
        { afterSend st p r with
            phoneCodeHash :=
              hashSet (afterSend st p r).phoneCodeHash (some p) resend.phone_code_hash },
        [.rpc (.sendCode (some p)), .rpc (.resendCode (some p) r.phone_code_hash)]) := by
  refine ⟨send_code_fresh st p r resend hp hnc, rfl,
    hashGet_hashSet_self st.phoneCodeHash (some p) r.phone_code_hash, ?_,
    hashGet_hashSet_self (afterSend st p r).phoneCodeHash (some p) resend.phone_code_hash,
    ?_⟩
  · rw [send_code_request.eq_def]
    simp [afterSend, parse_phone, Option.orElse, otruthy, isEmpty_false_of_ne p hp,
      isEmpty_false_of_ne r.phone_code_hash hr,
      hashGet_hashSet_self st.phoneCodeHash (some p) r.phone_code_hash]
  · rw [send_code_request.eq_def]
    simp [afterSend, parse_phone, Option.orElse, otruthy, isEmpty_false_of_ne p hp, hnc]

/-- Witness for C5 at a concrete fresh phone. -/
theorem send_code_request_cache_spec_witness :
    (("555" : String) ≠ "" ∧ hashGet witSt.phoneCodeHash (some "555") = none ∧
      witSent.phone_code_hash ≠ "") ∧
    send_code_request witSt (some "555") false [.ok witSent] witSentU =
      some (witSent, afterSend witSt "555" witSent, [.rpc (.sendCode (some "555"))]) ∧
    send_code_request (afterSend witSt "555" witSent) (some "555") false [] witSentU =
      some (witSentU,
        { afterSend witSt "555" witSent with
            phone := some "555",
            phoneCodeHash :=
              hashSet (afterSend witSt "555" witSent).phoneCodeHash (some "555")
                witSentU.phone_code_hash },
        [.rpc (.resendCode (some "555") witSent.phone_code_hash)]) := by
  have h := send_code_request_cache_spec witSt "555" witSent witSentU []
    (by decide) rfl (by decide)
  exact ⟨⟨by decide, rfl, by decide⟩, h.1, h.2.2.2.1⟩

/-- C4: an empty code value obtained from the code source is rejected and
reported as an invalid code, consumes exactly one retry unit
(`attempts + 1`), and no sign-in or sign-up RPC is issued for it: the only
event the iteration adds is the invalid-code report, which is not an RPC. -/
theorem empty_code_rejected_spec (lenv : LoopEnv) (st : ClientState)
    (phone : Option String) (f l : String) (su : Bool) (k N : Nat)
    (hk : k < N) (hv : lenv.codeVal k = "") :
    code_loop lenv st phone f l su k N =
      (code_loop lenv st phone f l su (k + 1) N).map
        (fun r => ⟨r.exit, r.st, r.attempts, Event.printInvalidCode :: r.trace⟩) ∧
    isInvalidCodeReport Event.printInvalidCode = true ∧
    isAuthRpc Event.printInvalidCode = false :=
  ⟨code_loop_step_empty lenv st phone f l su k N hk hv, rfl, rfl⟩

/-- Lemma: `send_code_request` never touches the authorized flag and only ever
issues send-code and resend-code RPCs, through any number of restarts. -/
theorem send_code_preserves_authorized (resend : SentCode) :
    ∀ (sends : List SendCodeRpcResult) (st : ClientState) (pa : Option String)
      (fs : Bool) (x : SentCode × ClientState × List Event),
      send_code_request st pa fs sends resend = some x →
      x.2.1.authorized = st.authorized ∧ ∀ e ∈ x.2.2, isAuthRpc e = false := by
  intro sends
  induction sends with
  | nil =>
    intro st pa fs x h
    rw [send_code_request.eq_def] at h
    cases ht : otruthy (hashGet st.phoneCodeHash ((parse_phone pa).orElse fun _ => st.phone)) with
    | false => simp [ht] at h
    | true =>
      simp [ht] at h
      simp [← h, isAuthRpc]
  | cons s rest ih =>
    intro st pa fs x h
    rw [send_code_request.eq_def] at h
    cases ht : otruthy (hashGet st.phoneCodeHash ((parse_phone pa).orElse fun _ => st.phone)) with
    | true =>
      simp [ht] at h
      simp [← h, isAuthRpc]
    | false =>
      cases s with
      | ok r =>
        cases fs <;> simp [ht] at h <;> simp [← h, isAuthRpc]
      | authRestart =>
        simp [ht] at h
        rcases hrec : send_code_request st pa fs rest resend with _ | y
        · rw [hrec] at h; simp at h
        · rw [hrec] at h
          simp at h
          obtain ⟨a, b, c, hy, hx⟩ := h
          obtain ⟨ha, he⟩ := ih st pa fs y hrec
          subst hy
          rw [← hx]
          refine ⟨by simpa using ha, ?_⟩
          intro e hm
          simp at hm
          rcases hm with rfl | hm
          · rfl
          · exact he e (by simpa using hm)

/-- C10: `sign_in` on an unauthorized client with a phone but no code, no
password and no bot token attempts no authentication: it delegates to
`send_code_request` and returns the sent-code information rather than a
user; whatever that delegation returns leaves the authorized flag unchanged
and contains no sign-in/sign-up RPC. -/
theorem sign_in_phone_only_delegates (st : ClientState) (env : RpcEnv) (p : String)
    (hme : env.getMe = none) (hp : p ≠ "") :
    sign_in st env (some p) none none none none =
      (send_code_request st (some p) false env.sends env.resend).map
        (fun r => (.ok (.sent r.1), r.2.1, r.2.2)) ∧
    ∀ x, send_code_request st (some p) false env.sends env.resend = some x →
      x.2.1.authorized = st.authorized ∧ ∀ e ∈ x.2.2, isAuthRpc e = false := by
  constructor
  · simp [sign_in, hme, otruthy, isEmpty_false_of_ne p hp]
  · intro x h
    exact send_code_preserves_authorized env.resend env.sends st (some p) false x h

/-- Witness for C10 at a concrete fresh phone. -/
theorem sign_in_phone_only_delegates_witness :
    ((RpcEnv.mk none (.error .rpcFailure) (.error .rpcFailure) dummyPwd
        (.error .rpcFailure) (.error .rpcFailure) [.ok witSent] dummySent).getMe = none ∧
      ("555" : String) ≠ "") ∧
    sign_in witSt
        ⟨none, .error .rpcFailure, .error .rpcFailure, dummyPwd,
         .error .rpcFailure, .error .rpcFailure, [.ok witSent], dummySent⟩
        (some "555") none none none none =
      (send_code_request witSt (some "555") false [.ok witSent] dummySent).map
        (fun r => (.ok (.sent r.1), r.2.1, r.2.2)) :=
  ⟨⟨rfl, by decide⟩,
   (sign_in_phone_only_delegates witSt
      ⟨none, .error .rpcFailure, .error .rpcFailure, dummyPwd,
       .error .rpcFailure, .error .rpcFailure, [.ok witSent], dummySent⟩
      "555" rfl (by decide)).1⟩

/-- C9: if the current user can already be fetched, `sign_in` and `sign_up`
return that user immediately with no RPC issued and no state change, and
`_start` (on an already-authorized client) returns the client itself with
no RPC issued and in particular without requesting a code. -/
theorem already_authorized_spec (st : ClientState) (envA envB : RpcEnv)
    (envS : StartEnv) (u v : User)
    (phone code password bot_token pch : Option String)
    (c f l : String) (phoneArg : PhoneArg) (pwArg : PasswordArg)
    (bt : Option String) (fs : Bool) (cv : Nat → String) (N : Nat)
    (hA : envA.getMe = some u) (hB : envB.getMe = some v)
    (hS : envS.isAuthorized = true) :
    sign_in st envA phone code password bot_token pch = some (.ok (.user u), st, []) ∧
    sign_up st envB c f l phone pch = (.ok v, st, []) ∧
    _start st envS phoneArg pwArg bt fs cv f l N =
      some (.ok (), if st.connected then st else { st with connected := true }, []) := by
  refine ⟨?_, ?_, ?_⟩
  · simp [sign_in, hA]
  · simp [sign_up, hB]
  · simp [_start, hS]

/-- Witness for C9 on a concrete authorized client. -/
theorem already_authorized_spec_witness :
    ((RpcEnv.mk (some witUser) (.error .rpcFailure) (.error .rpcFailure) dummyPwd
        (.error .rpcFailure) (.error .rpcFailure) [] dummySent).getMe = some witUser ∧
      (StartEnv.mk true (fun _ => "1") (fun _ => none) (fun _ => .error .phoneCodeInvalid)
        (fun _ => none) (fun _ => dummyPwd) (fun _ => .error .passwordHashInvalid)
        (fun _ => []) (fun _ => dummySent) [] dummySent none (.ok witBotUser) 1
        none).isAuthorized = true) ∧
    sign_in witSt
        ⟨some witUser, .error .rpcFailure, .error .rpcFailure, dummyPwd,
         .error .rpcFailure, .error .rpcFailure, [], dummySent⟩
        (some "555") none none none none = some (.ok (.user witUser), witSt, []) ∧
    _start witSt
        ⟨true, fun _ => "1", fun _ => none, fun _ => .error .phoneCodeInvalid,
         fun _ => none, fun _ => dummyPwd, fun _ => .error .passwordHashInvalid,
         fun _ => [], fun _ => dummySent, [], dummySent, none, .ok witBotUser, 1, none⟩
        (.strA "555") .noneA none false (fun _ => "1") "f" "l" 3 =
      some (.ok (), if witSt.connected then witSt
        else { witSt with connected := true }, []) := by
  have h := already_authorized_spec witSt
    ⟨some witUser, .error .rpcFailure, .error .rpcFailure, dummyPwd,
     .error .rpcFailure, .error .rpcFailure, [], dummySent⟩
    ⟨some witUser, .error .rpcFailure, .error .rpcFailure, dummyPwd,
     .error .rpcFailure, .error .rpcFailure, [], dummySent⟩
    ⟨true, fun _ => "1", fun _ => none, fun _ => .error .phoneCodeInvalid,
     fun _ => none, fun _ => dummyPwd, fun _ => .error .passwordHashInvalid,
     fun _ => [], fun _ => dummySent, [], dummySent, none, .ok witBotUser, 1, none⟩
    witUser witUser (some "555") none none none none "c" "f" "l"
    (.strA "555") .noneA none false (fun _ => "1") 3 rfl rfl rfl
  exact ⟨⟨rfl, rfl⟩, h.1, h.2.2⟩

/-- C7 counterexample: a callable phone together with a fixed (non-callable)
bot token is NOT rejected — validation passes and the flow goes on to issue
the bot-authorization RPC.  The code only rejects when the *phone* is
non-callable (`if phone and bot_token and not callable(phone)`), so the
claim that a fixed bot token alongside any phone is rejected is false. -/
theorem start_both_given_not_rejected :
    start witSt witStartEnv (.cbA fun _ => "555") .noneA (some "1:a") false
        .noneA "f" "l" 3 =
      some (.ok (),
        { witSt with bot := some true, selfInputPeer := some 9, authorized := true },
        [.rpc (.importBotAuth "1:a")]) := by
  simp +decide [start, _start, witStartEnv, witSt, sign_in, otruthy,
    PhoneArg.truthy, PhoneArg.callable, PhoneArg.value, baseEnv, _on_login,
    get_input_peer, witBotUser]

/-- C7 (amended): `start`'s entry validation is fatal before any RPC is
issued: it rejects when the code-retrieval callback is not callable; it
rejects when neither a phone nor a bot token is given; and it rejects when
both a phone and a bot token are given and the *phone* is a fixed
(non-callable) value.  In each case the trace is empty: no RPC issued. -/
theorem start_validation_spec (st : ClientState) (env : StartEnv)
    (phone : PhoneArg) (password : PasswordArg) (bot_token : Option String)
    (fs : Bool) (cb : CodeCbArg) (f l : String) (N : Nat) :
    (cb = .notCallableA →
      start st env phone password bot_token fs cb f l N =
        some (.error (.valueError
          "The code_callback parameter needs to be a callable function that returns the code you received by Telegram."),
          st, [])) ∧
    (cb ≠ .notCallableA → phone.truthy = false → otruthy bot_token = false →
      start st env phone password bot_token fs cb f l N =
        some (.error (.valueError "No phone number or bot token provided."),
          st, [])) ∧
    (cb ≠ .notCallableA → phone.truthy = true → otruthy bot_token = true →
      phone.callable = false →
      start st env phone password bot_token fs cb f l N =
        some (.error (.valueError
          "Both a phone and a bot token provided, must only provide one of either"),
          st, [])) := by
  refine ⟨?_, ?_, ?_⟩
  · intro h
    subst h
    simp [start]
  · intro h h1 h2
    cases cb with
    | notCallableA => exact absurd rfl h
    | noneA => simp [start, h1, h2]
    | callableA vals => simp [start, h1, h2]
  · intro h h1 h2 h3
    cases cb with
    | notCallableA => exact absurd rfl h
    | noneA => simp [start, h1, h2, h3]
    | callableA vals => simp [start, h1, h2, h3]

/-- Witness for the amended C7: a fixed phone and a fixed bot token given
together are rejected with no RPC. -/
theorem start_validation_spec_witness :
    ((CodeCbArg.noneA ≠ CodeCbArg.notCallableA) ∧
      (PhoneArg.strA "555").truthy = true ∧ otruthy (some "1:a") = true ∧
      (PhoneArg.strA "555").callable = false) ∧
    start witSt witStartEnv (.strA "555") .noneA (some "1:a") false .noneA
        "f" "l" 3 =
      some (.error (.valueError
        "Both a phone and a bot token provided, must only provide one of either"),
        witSt, []) :=
  ⟨⟨fun h => CodeCbArg.noConfusion h, by decide, by decide, by decide⟩,
   (start_validation_spec witSt witStartEnv (.strA "555") .noneA (some "1:a")
      false .noneA "f" "l" 3).2.2 (fun h => CodeCbArg.noConfusion h)
      (by decide) (by decide) (by decide)⟩

/-- C8: every `edit_2fa` call that reaches the RPC phase appends the fresh
random bytes to the fetched descriptor's `new_algo.salt1` before computing
any digest: the settings sent in the update RPC carry
`salt1 ++ urandom`, and the new-password digest (when a new password is
given) is computed over that refreshed salt.  Consequently two runs over the
same fetched descriptor with different random bytes use different salts and
produce different digests of the same plaintext. -/
theorem edit_2fa_salt_refresh (env1 env2 : Edit2faEnv) (cur new : Option String)
    (hint : String) (email : Option String) (ecb : EmailCbArg)
    (hreach : new.isSome ∨ cur.isSome)
    (hemail : otruthy email = true → ecb.callable = true) :
    (∃ pw rest, (edit_2fa env1 cur new hint email ecb).2 =
        Event.rpc .getPassword ::
          Event.rpc (.updatePasswordSettings pw
            ⟨⟨env1.getPwdAns.new_algo.salt1 ++ env1.urandom⟩,
             if otruthy new then
               compute_digest ⟨env1.getPwdAns.new_algo.salt1 ++ env1.urandom⟩
                 (new.getD "")
             else PwHash.emptyBytes,
             hint, email⟩) :: rest) ∧
    (env1.getPwdAns = env2.getPwdAns → env1.urandom ≠ env2.urandom →
      (Algo.mk (env1.getPwdAns.new_algo.salt1 ++ env1.urandom) ≠
        Algo.mk (env2.getPwdAns.new_algo.salt1 ++ env2.urandom)) ∧
      compute_digest ⟨env1.getPwdAns.new_algo.salt1 ++ env1.urandom⟩ (new.getD "") ≠
        compute_digest ⟨env2.getPwdAns.new_algo.salt1 ++ env2.urandom⟩ (new.getD "")) := by
  constructor
  · have h1 : (new.isNone && cur.isNone) = false := by
      rcases hreach with h | h <;> rcases new with _ | a <;> rcases cur with _ | b <;>
        simp_all
    have h2 : (otruthy email && !ecb.callable) = false := by
      by_cases he : otruthy email = true
      · simp [he, hemail he]
      · simp [Bool.of_not_eq_true he]
    rw [edit_2fa]
    rw [h1]
    simp only [Bool.false_eq_true, if_false, h2]
    rcases env1.updateAns with _ | len
    · exact ⟨_, [], rfl⟩
    · rcases ecb with _ | vals | _
      · exact ⟨_, [], rfl⟩
      · exact ⟨_, [.rpc (.confirmPasswordEmail (vals len))], rfl⟩
      · exact ⟨_, [], rfl⟩
  · intro h12 hur
    constructor
    · intro heq
      injection heq with hs
      rw [h12] at hs
      exact hur (List.append_cancel_left hs)
    · intro heq
      simp [compute_digest] at heq
      rw [h12] at heq
      exact hur (List.append_cancel_left heq)

/-- Witness for C8: a password change over the same fetched descriptor with
two different random salt refreshes. -/
theorem edit_2fa_salt_refresh_witness :
    (((some "pw" : Option String).isSome ∨ (none : Option String).isSome) ∧
      (Edit2faEnv.mk dummyPwd [1] .ok).getPwdAns = (Edit2faEnv.mk dummyPwd [2] .ok).getPwdAns ∧
      (Edit2faEnv.mk dummyPwd [1] .ok).urandom ≠ (Edit2faEnv.mk dummyPwd [2] .ok).urandom) ∧
    compute_digest ⟨(Edit2faEnv.mk dummyPwd [1] .ok).getPwdAns.new_algo.salt1 ++
        (Edit2faEnv.mk dummyPwd [1] .ok).urandom⟩ ((some "pw").getD "") ≠
      compute_digest ⟨(Edit2faEnv.mk dummyPwd [2] .ok).getPwdAns.new_algo.salt1 ++
        (Edit2faEnv.mk dummyPwd [2] .ok).urandom⟩ ((some "pw").getD "") :=
  ⟨⟨Or.inl rfl, rfl, by decide⟩,
   ((edit_2fa_salt_refresh ⟨dummyPwd, [1], .ok⟩ ⟨dummyPwd, [2], .ok⟩ none (some "pw")
      "" none .noneA (Or.inl rfl) (fun h => by simp [otruthy] at h)).2 rfl
      (by decide)).2⟩

/-- C1: with budget `maxAttempts = N ≥ 1` in the phone sign-in flow, if
every code submission fails transiently (empty code, an
expired/hash-empty/invalid code error, or an occupancy flip), then exactly
`N` consecutive failed attempts raise the fatal
"N consecutive sign-in attempts failed" error, with no further sign-in/up
RPC attempted (at most `N` such RPCs occur in the whole run); and a run
with `k ≤ N - 1` failed attempts followed by one successful submission
completes successfully. -/
theorem retry_budget_spec (st : ClientState) (env : StartEnv)
    (password : PasswordArg) (p : String) (r : SentCode) (cv : Nat → String)
    (f l : String) (N : Nat)
    (hconn : st.connected = true) (hauth : env.isAuthorized = false)
    (hp : p ≠ "") (hnc : hashGet st.phoneCodeHash (some p) = none)
    (hsends : env.sends = [.ok r]) (hhash : r.phone_code_hash ≠ "")
    (hN : 1 ≤ N) :
    ((∀ i, i < N → iterFails ⟨cv, env.codeGetMe, env.codeAns⟩ i) →
      ∃ st2 tr, _start st env (.strA p) password none false cv f l N =
          some (.error (.runtimeError
            (toString N ++ " consecutive sign-in attempts failed. Aborting")),
            st2, tr) ∧
        authRpcCount tr ≤ N) ∧
    (∀ k u, k < N → (∀ i, i < k → iterFails ⟨cv, env.codeGetMe, env.codeAns⟩ i) →
      cv k ≠ "" → env.codeGetMe k = none → env.codeAns k = .ok u →
      ∃ st2 tr, _start st env (.strA p) password none false cv f l N =
          some (.ok (), st2, tr) ∧ st2.authorized = true) := by
  have ready := ready_afterSend st p r hp hhash
  constructor
  · intro hfails
    obtain ⟨tr, htr, hcount⟩ :=
      code_loop_all_fail ⟨cv, env.codeGetMe, env.codeAns⟩ (afterSend st p r)
        (some p) f l p r.phone_code_hash N ready hfails N 0
        (!r.phone_registered) (by omega)
    refine ⟨afterSend st p r, .rpc (.sendCode (some p)) :: tr, ?_, ?_⟩
    · exact _start_phone_exhausted st env password p r cv f l N
        (afterSend st p r) N tr hconn hauth hp hnc hsends htr
    · rw [authRpcCount_cons_not _ _ (by rfl)]
      exact hcount
  · intro k u hk hfails hv hme hans
    obtain ⟨su2, pre, heq, hc1, hc2⟩ :=
      code_loop_skip ⟨cv, env.codeGetMe, env.codeAns⟩ (afterSend st p r)
        (some p) f l p r.phone_code_hash N ready k 0 k
        (!r.phone_registered) (by omega) (le_of_lt hk) hfails
    obtain ⟨tr2, htr2⟩ :=
      code_loop_success_any ⟨cv, env.codeGetMe, env.codeAns⟩ (afterSend st p r)
        (some p) f l k N p r.phone_code_hash u su2 hk ready hv hme hans
    have hloop : code_loop ⟨cv, env.codeGetMe, env.codeAns⟩ (afterSend st p r)
        (some p) f l (!r.phone_registered) 0 N =
        some ⟨.success (.user u), _on_login (afterSend st p r) u, k, pre ++ tr2⟩ := by
      rw [heq, htr2]; rfl
    refine ⟨_on_login (afterSend st p r) u,
      .rpc (.sendCode (some p)) ::
        ((pre ++ tr2) ++ [.printSignedIn (get_display_name (.user u))]),
      ?_, by simp [_on_login]⟩
    exact _start_phone_success st env password p r cv f l N _ k (pre ++ tr2)
      (.user u) hconn hauth hp hnc hsends hloop

/-- Witness for C1: budget 2, remote always answering "invalid code". -/
theorem retry_budget_spec_witness :
    (witSt.connected = true ∧ witStartEnv.isAuthorized = false ∧
      ("555" : String) ≠ "" ∧ hashGet witSt.phoneCodeHash (some "555") = none ∧
      witStartEnv.sends = [.ok witSent] ∧ witSent.phone_code_hash ≠ "" ∧ 1 ≤ 2 ∧
      (∀ i, i < 2 → iterFails ⟨fun _ => "1", witStartEnv.codeGetMe,
        witStartEnv.codeAns⟩ i)) ∧
    (∃ st2 tr, _start witSt witStartEnv (.strA "555") .noneA none false
        (fun _ => "1") "f" "l" 2 =
        some (.error (.runtimeError
          (toString 2 ++ " consecutive sign-in attempts failed. Aborting")),
          st2, tr) ∧
      authRpcCount tr ≤ 2) := by
  refine ⟨⟨rfl, rfl, by decide, rfl, rfl, by decide, by decide, ?_⟩, ?_⟩
  · intro i hi
    exact Or.inr ⟨rfl, rfl⟩
  · exact (retry_budget_spec witSt witStartEnv .noneA "555" witSent
      (fun _ => "1") "f" "l" 2 rfl rfl (by decide) rfl rfl (by decide)
      (by decide)).1 (fun i hi => Or.inr ⟨rfl, rfl⟩)

/-- C2: a password-required outcome exits the code loop without consuming a
retry unit (the loop ends with `attempts` still equal to the `k` failures
that preceded it, state unchanged); the password phase then runs on its own
independent budget of `maxAttempts`: every invalid-password result is
reported to the caller and consumes exactly one password attempt, and
exhausting all `N` password attempts (regardless of the `k` code attempts
already consumed) is fatal, while an `m < N`-th successful check signs in
after exactly `m` reported invalid passwords. -/
theorem password_phase_spec (st : ClientState) (env : StartEnv)
    (p : String) (r : SentCode) (cv pv : Nat → String) (f l : String)
    (N k : Nat)
    (hconn : st.connected = true) (hauth : env.isAuthorized = false)
    (hp : p ≠ "") (hnc : hashGet st.phoneCodeHash (some p) = none)
    (hsends : env.sends = [.ok r]) (hhash : r.phone_code_hash ≠ "")
    (hk : k < N)
    (hfails : ∀ i, i < k → iterFails ⟨cv, env.codeGetMe, env.codeAns⟩ i)
    (hv : cv k ≠ "") (hme : env.codeGetMe k = none)
    (hans : env.codeAns k = .error .sessionPasswordNeeded) :
    (∃ tr, code_loop ⟨cv, env.codeGetMe, env.codeAns⟩ (afterSend st p r)
        (some p) f l (!r.phone_registered) 0 N =
        some ⟨.twoStep, afterSend st p r, k, tr⟩) ∧
    ((∀ j, j < N → pv j ≠ "" ∧ env.pwdGetMe j = none ∧
        env.pwdCheckAns j = .error .passwordHashInvalid) →
      ∃ st2 tr, _start st env (.strA p) (.cbA pv) none false cv f l N =
          some (.error .passwordHashInvalid, st2, tr) ∧
        invalidPwdReportCount tr = N) ∧
    (∀ m u, m < N →
      (∀ j, j < m → pv j ≠ "" ∧ env.pwdGetMe j = none ∧
        env.pwdCheckAns j = .error .passwordHashInvalid) →
      pv m ≠ "" → env.pwdGetMe m = none → env.pwdCheckAns m = .ok u →
      ∃ st2 tr, _start st env (.strA p) (.cbA pv) none false cv f l N =
          some (.ok (), st2, tr) ∧
        invalidPwdReportCount tr = m) := by
  have ready := ready_afterSend st p r hp hhash
  obtain ⟨su2, pre, heq, hc1, hc2⟩ :=
    code_loop_skip ⟨cv, env.codeGetMe, env.codeAns⟩ (afterSend st p r)
      (some p) f l p r.phone_code_hash N ready k 0 k
      (!r.phone_registered) (by omega) (le_of_lt hk) hfails
  obtain ⟨tr2, htr2, hc3⟩ :=
    code_loop_twostep_any ⟨cv, env.codeGetMe, env.codeAns⟩ (afterSend st p r)
      (some p) f l k N p r.phone_code_hash su2 hk ready hv hme hans
  have hloop : code_loop ⟨cv, env.codeGetMe, env.codeAns⟩ (afterSend st p r)
      (some p) f l (!r.phone_registered) 0 N =
      some ⟨.twoStep, afterSend st p r, k, pre ++ tr2⟩ := by
    rw [heq, htr2]; rfl
  have hcnt : invalidPwdReportCount (pre ++ tr2) = 0 := by
    rw [invalidPwdReportCount_append, hc2, hc3]
  refine ⟨⟨pre ++ tr2, hloop⟩, ?_, ?_⟩
  · intro hinv
    obtain ⟨ptr, hptr, hpcount⟩ :=
      password_loop_all_invalid ⟨pv, env.pwdGetMe, env.pwdGetPwdAns,
        env.pwdCheckAns, env.pwdSends, env.pwdResend⟩ (afterSend st p r)
        (some p) N hinv N 0 (by omega)
    refine ⟨afterSend st p r,
      .rpc (.sendCode (some p)) :: ((pre ++ tr2) ++ ptr), ?_, ?_⟩
    · exact _start_phone_twostep_pwd_exhausted st env pv p r cv f l N
        (afterSend st p r) (afterSend st p r) k N (pre ++ tr2) ptr
        hconn hauth hp hnc hsends hloop hptr
    · rw [invalidPwdReportCount_cons_not _ _ (by rfl),
        invalidPwdReportCount_append, hcnt, hpcount]
      omega
  · intro m u hm hinv hpvm hgm hok
    obtain ⟨ppre, hskip, hpcnt⟩ :=
      password_loop_skip ⟨pv, env.pwdGetMe, env.pwdGetPwdAns,
        env.pwdCheckAns, env.pwdSends, env.pwdResend⟩ (afterSend st p r)
        (some p) N m 0 m (by omega) (le_of_lt hm) hinv
    have hpok := password_loop_ok_step ⟨pv, env.pwdGetMe, env.pwdGetPwdAns,
        env.pwdCheckAns, env.pwdSends, env.pwdResend⟩ (afterSend st p r)
        (some p) m N u hm hpvm hgm hok
    have hpw : password_loop ⟨pv, env.pwdGetMe, env.pwdGetPwdAns,
        env.pwdCheckAns, env.pwdSends, env.pwdResend⟩ (afterSend st p r)
        (some p) 0 N =
        some ⟨.success (.user u), _on_login (afterSend st p r) u, m,
          ppre ++ [Event.rpc .getPassword,
            Event.rpc (.checkPassword (compute_check (env.pwdGetPwdAns m) (pv m)))]⟩ := by
      rw [hskip, hpok]; rfl
    refine ⟨_on_login (afterSend st p r) u,
      .rpc (.sendCode (some p)) ::
        ((pre ++ tr2) ++
          ((ppre ++ [Event.rpc .getPassword,
            Event.rpc (.checkPassword (compute_check (env.pwdGetPwdAns m) (pv m)))]) ++
            [.printSignedIn (get_display_name (.user u))])), ?_, ?_⟩
    · exact _start_phone_twostep_pwd_success st env pv p r cv f l N
        (afterSend st p r) (_on_login (afterSend st p r) u) k m (pre ++ tr2) _
        (.user u) hconn hauth hp hnc hsends hloop hpw
    · rw [invalidPwdReportCount_cons_not _ _ (by rfl),
        invalidPwdReportCount_append, hcnt,
        invalidPwdReportCount_append, invalidPwdReportCount_append, hpcnt]
      simp [invalidPwdReportCount, isInvalidPwdReport]

/-- Witness for C2: password required on the first code submission, then an
invalid password followed by a successful one, within budget 2. -/
theorem password_phase_spec_witness :
    (witSt.connected = true ∧
      hashGet witSt.phoneCodeHash (some "555") = none ∧ (0 : Nat) < 2 ∧
      witPwdEnv.codeAns 0 = .error .sessionPasswordNeeded ∧
      witPwdEnv.pwdCheckAns 0 = .error .passwordHashInvalid ∧
      witPwdEnv.pwdCheckAns 1 = .ok witUser) ∧
    (∃ st2 tr, _start witSt witPwdEnv (.strA "555") (.cbA fun _ => "pw") none
        false (fun _ => "1") "f" "l" 2 =
        some (.ok (), st2, tr) ∧ invalidPwdReportCount tr = 1) := by
  refine ⟨⟨rfl, rfl, by decide, rfl, rfl, rfl⟩, ?_⟩
  exact (password_phase_spec witSt witPwdEnv "555" witSent (fun _ => "1")
      (fun _ => "pw") "f" "l" 2 0 rfl rfl (by decide) rfl rfl (by decide)
      (by decide) (fun i hi => absurd hi (by omega)) (by decide) rfl
      rfl).2.2 1 witUser (by decide)
    (fun j hj => ⟨by decide, rfl, by interval_cases j <;> rfl⟩)
    (by decide) rfl rfl

/-- C3: the sign-up branch is initially chosen iff the send-code result
reports the phone as not registered (the first sign-in/up RPC of the run is
a sign-up request exactly when `phone_registered = false`); thereafter an
`Occupied` outcome flips the branch to sign-in and an `Unoccupied` outcome
flips it to sign-up, each flip consuming exactly one retry unit
(`attempts + 1`), issuing exactly one sign-in/up RPC and printing no
invalid-code report to the user. -/
theorem occupancy_flip_spec (st : ClientState) (env : StartEnv)
    (password : PasswordArg) (p : String) (r : SentCode) (cv : Nat → String)
    (f l : String) (N : Nat)
    (hconn : st.connected = true) (hauth : env.isAuthorized = false)
    (hp : p ≠ "") (hnc : hashGet st.phoneCodeHash (some p) = none)
    (hsends : env.sends = [.ok r]) (hhash : r.phone_code_hash ≠ "") :
    (0 < N → cv 0 ≠ "" → env.codeGetMe 0 = none → ∀ u, env.codeAns 0 = .ok u →
      ∃ st2 tr, _start st env (.strA p) password none false cv f l N =
          some (.ok (), st2, tr) ∧
        tr.find? isAuthRpc = some (if r.phone_registered
          then .rpc (.signInReq p r.phone_code_hash (cv 0))
          else .rpc (.signUpReq p r.phone_code_hash (cv 0) f l))) ∧
    (∀ su k, k < N → cv k ≠ "" → env.codeGetMe k = none →
      env.codeAns k = .error .phoneNumberOccupied →
      ∃ pre, code_loop ⟨cv, env.codeGetMe, env.codeAns⟩ (afterSend st p r)
            (some p) f l su k N =
          (code_loop ⟨cv, env.codeGetMe, env.codeAns⟩ (afterSend st p r)
            (some p) f l false (k + 1) N).map
            (fun r2 => ⟨r2.exit, r2.st, r2.attempts, pre ++ r2.trace⟩) ∧
        authRpcCount pre = 1 ∧ invalidCodeReportCount pre = 0) ∧
    (∀ su k, k < N → cv k ≠ "" → env.codeGetMe k = none →
      env.codeAns k = .error .phoneNumberUnoccupied →
      ∃ pre, code_loop ⟨cv, env.codeGetMe, env.codeAns⟩ (afterSend st p r)
            (some p) f l su k N =
          (code_loop ⟨cv, env.codeGetMe, env.codeAns⟩ (afterSend st p r)
            (some p) f l true (k + 1) N).map
            (fun r2 => ⟨r2.exit, r2.st, r2.attempts, pre ++ r2.trace⟩) ∧
        authRpcCount pre = 1 ∧ invalidCodeReportCount pre = 0) := by
  have ready := ready_afterSend st p r hp hhash
  refine ⟨?_, ?_, ?_⟩
  · intro hN0 hv0 hme0 u hans0
    cases hreg : r.phone_registered
    · -- not registered: first RPC is sign-up
      have hloop : code_loop ⟨cv, env.codeGetMe, env.codeAns⟩ (afterSend st p r)
          (some p) f l (!r.phone_registered) 0 N =
          some ⟨.success (.user u), _on_login (afterSend st p r) u, 0,
            tosEvents (afterSend st p r) ++
              Event.rpc (.signUpReq p r.phone_code_hash (cv 0) f l) ::
                acceptTosEvents (afterSend st p r)⟩ := by
        rw [hreg]
        exact code_loop_signup_ok ⟨cv, env.codeGetMe, env.codeAns⟩
          (afterSend st p r) (some p) f l 0 N p r.phone_code_hash u hN0 ready
          hv0 hme0 hans0
      refine ⟨_, _, _start_phone_success st env password p r cv f l N _ 0 _
        (.user u) hconn hauth hp hnc hsends hloop, ?_⟩
      simp [List.find?_cons, isAuthRpc, List.find?_append, find?_auth_tos,
        List.find?]
    · -- registered: first RPC is sign-in
      have hloop : code_loop ⟨cv, env.codeGetMe, env.codeAns⟩ (afterSend st p r)
          (some p) f l (!r.phone_registered) 0 N =
          some ⟨.success (.user u), _on_login (afterSend st p r) u, 0,
            [.rpc (.signInReq p r.phone_code_hash (cv 0))]⟩ := by
        rw [hreg]
        exact code_loop_signin_ok ⟨cv, env.codeGetMe, env.codeAns⟩
          (afterSend st p r) (some p) f l 0 N p r.phone_code_hash u hN0 ready
          hv0 hme0 hans0
      refine ⟨_, _, _start_phone_success st env password p r cv f l N _ 0 _
        (.user u) hconn hauth hp hnc hsends hloop, ?_⟩
      simp [List.find?_cons, isAuthRpc, List.find?]
  · intro su k hk hv hme hans
    cases su
    · refine ⟨[.rpc (.signInReq p r.phone_code_hash (cv k))], ?_, ?_, ?_⟩
      · rw [code_loop_signin_occupied ⟨cv, env.codeGetMe, env.codeAns⟩
          (afterSend st p r) (some p) f l k N p r.phone_code_hash hk ready
          hv hme hans]
        simp
      · simp [authRpcCount, isAuthRpc]
      · simp [invalidCodeReportCount, isInvalidCodeReport]
    · refine ⟨tosEvents (afterSend st p r) ++
        [.rpc (.signUpReq p r.phone_code_hash (cv k) f l)], ?_, ?_, ?_⟩
      · rw [code_loop_signup_occupied ⟨cv, env.codeGetMe, env.codeAns⟩
          (afterSend st p r) (some p) f l k N p r.phone_code_hash hk ready
          hv hme hans]
        simp
      · rw [authRpcCount_append, authRpcCount_tos]
        simp [authRpcCount, isAuthRpc]
      · rw [invalidCodeReportCount_append, invalidCodeReportCount_tos]
        simp [invalidCodeReportCount, isInvalidCodeReport]
  · intro su k hk hv hme hans
    cases su
    · refine ⟨[.rpc (.signInReq p r.phone_code_hash (cv k))], ?_, ?_, ?_⟩
      · rw [code_loop_signin_unoccupied ⟨cv, env.codeGetMe, env.codeAns⟩
          (afterSend st p r) (some p) f l k N p r.phone_code_hash hk ready
          hv hme hans]
        simp
      · simp [authRpcCount, isAuthRpc]
      · simp [invalidCodeReportCount, isInvalidCodeReport]
    · refine ⟨tosEvents (afterSend st p r) ++
        [.rpc (.signUpReq p r.phone_code_hash (cv k) f l)], ?_, ?_, ?_⟩
      · rw [code_loop_signup_unoccupied ⟨cv, env.codeGetMe, env.codeAns⟩
          (afterSend st p r) (some p) f l k N p r.phone_code_hash hk ready
          hv hme hans]
        simp
      · rw [authRpcCount_append, authRpcCount_tos]
        simp [authRpcCount, isAuthRpc]
      · rw [invalidCodeReportCount_append, invalidCodeReportCount_tos]
        simp [invalidCodeReportCount, isInvalidCodeReport]

/-- Witness for C3: an unregistered phone whose first submission succeeds
(the first RPC is the sign-up request), and a concrete occupied flip. -/
theorem occupancy_flip_spec_witness :
    (witSt.connected = true ∧ witUnregEnv.isAuthorized = false ∧
      ("555" : String) ≠ "" ∧ hashGet witSt.phoneCodeHash (some "555") = none ∧
      witUnregEnv.sends = [.ok witSentU] ∧ witSentU.phone_code_hash ≠ "" ∧
      (0 : Nat) < 2 ∧ witUnregEnv.codeAns 0 = .ok witUser) ∧
    (∃ st2 tr, _start witSt witUnregEnv (.strA "555") .noneA none false
        (fun _ => "1") "f" "l" 2 = some (.ok (), st2, tr) ∧
      tr.find? isAuthRpc = some (if witSentU.phone_registered
        then .rpc (.signInReq "555" witSentU.phone_code_hash "1")
        else .rpc (.signUpReq "555" witSentU.phone_code_hash "1" "f" "l"))) := by
  refine ⟨⟨rfl, rfl, by decide, rfl, rfl, by decide, by decide, rfl⟩, ?_⟩
  exact (occupancy_flip_spec witSt witUnregEnv .noneA "555" witSentU
      (fun _ => "1") "f" "l" 2 rfl rfl (by decide) rfl rfl (by decide)).1
    (by decide) (by decide) rfl witUser rfl

/-- Witness for C4: an empty first code with budget 2. -/
theorem empty_code_rejected_spec_witness :
    (0 < 2 ∧ (LoopEnv.mk (fun _ => "") (fun _ => none)
      (fun _ => .error .phoneCodeInvalid)).codeVal 0 = "") ∧
    code_loop ⟨fun _ => "", fun _ => none, fun _ => .error .phoneCodeInvalid⟩
        witSt (some "555") "f" "l" false 0 2 =
      (code_loop ⟨fun _ => "", fun _ => none, fun _ => .error .phoneCodeInvalid⟩
          witSt (some "555") "f" "l" false (0 + 1) 2).map
        (fun r => ⟨r.exit, r.st, r.attempts, Event.printInvalidCode :: r.trace⟩) :=
  ⟨⟨by decide, rfl⟩,
   (empty_code_rejected_spec ⟨fun _ => "", fun _ => none, fun _ => .error .phoneCodeInvalid⟩
      witSt (some "555") "f" "l" false 0 2 (by decide) rfl).1⟩

end Telethon
